import Mathlib

/-!
# GuideWire unstable server: the chaos state machine

A shallow embedding of `src/unstableServer/server.go` and theorems about it.

Conventions of the embedding.

* A `time.Time` is an integer number of nanoseconds counted from Go's zero
  `time.Time{}`; a `time.Duration` is an integer number of nanoseconds.
  `Time.Sub` (hence `time.Since`, `time.Until`) saturates at the int64 range,
  as Go does; Duration `+` and unary `-` wrap at int64.
* Every read of the clock (`time.Now`, `time.Since`, `time.Until`) is a field
  of `Clock`, one field per call site; every random draw is a field of `Rand`.
* `float32` / `float64` arithmetic is taken exactly, over the rationals;
  the IEEE results of a division by zero (`+Inf`, `-Inf`, `NaN`) are kept as
  the extra values of `FVal`.
  The conversion `int(f)` of a finite float is exact truncation; of an
  infinite one or a `NaN` it is the value `Rand.badConv`, which Go leaves to
  the implementation.
* `ChaosCount` goes up by one per due tick at most, five seconds apart, and
  cannot leave the range of `int`: it is an unbounded `Int`.
* The globals of the program are the fields of `State`; `config` is one of
  them. The mutex and the goroutines are not modelled: handlers run one at a
  time, and a background task is recorded as an `Injection`.
* A run-time panic (nil map entry dereferenced, `rand.Intn` of a non-positive
  argument, `make` of a negative length) is an `Outcome`. The server of
  `startServer` speaks plain HTTP/1.x, whose `ResponseWriter` is a `Hijacker`:
  the hijack of line 158 succeeds.
-/

namespace GuideWire

/-! ## Time -/

/-! A `time.Time` and a `time.Duration` are both an `Int` of nanoseconds. -/

/-- Largest `time.Duration` (`1<<63 - 1`). -/
def maxDuration : Int := 9223372036854775807

/-- Smallest `time.Duration` (`-1 << 63`). -/
def minDuration : Int := -9223372036854775808

/-- Constant `time.Millisecond`. -/
def millisecond : Int := 1000000

/-- Constant `time.Second`. -/
def second : Int := 1000000000

/-- Constant `time.Minute`. -/
def minute : Int := 60 * second

/-- The int64 value of an integer after wrap-around. -/
def wrapInt64 (x : Int) : Int := (x + 9223372036854775808) % 18446744073709551616 - 9223372036854775808

/-- Duration addition as Go computes `a + b` on `time.Duration`. -/
def durAdd (a b : Int) : Int := wrapInt64 (a + b)

/-- Duration negation as Go computes `-a` on `time.Duration`. -/
def durNeg (a : Int) : Int := wrapInt64 (-a)

/-- Method `t.Sub(u)`: the difference, saturated to the Duration range. -/
def timeSub (t u : Int) : Int :=
  if t - u > maxDuration then maxDuration
  else if t - u < minDuration then minDuration
  else t - u

/-- Method `t.Add(d)`. -/
def timeAdd (t : Int) (d : Int) : Int := t + d

/-- Function `time.Since(t)`, with `now` the clock reading it takes. -/
def since (now t : Int) : Int := timeSub now t

/-- Function `time.Until(t)`, with `now` the clock reading it takes. -/
def timeUntil (now t : Int) : Int := timeSub t now

/-- Method `d.Seconds()`, exactly. -/
def seconds (d : Int) : ℚ := (d : ℚ) / 1000000000

/-! ## Floating-point values -/

/-- A float: a finite value (kept exact) or one of the IEEE specials. -/
inductive FVal where
  | fin (q : ℚ)
  | posInf
  | negInf
  | nan
  deriving DecidableEq

/-- Float division `a / b` of two finite values. -/
def fdiv (a b : ℚ) : FVal :=
  if b = 0 then
    if 0 < a then FVal.posInf else if a < 0 then FVal.negInf else FVal.nan
  else FVal.fin (a / b)

/-- Float product `c * x` of a finite `c` and a float `x`. -/
def fscale (c : ℚ) (x : FVal) : FVal :=
  match x with
  | FVal.fin q => FVal.fin (c * q)
  | FVal.posInf => if 0 < c then FVal.posInf else if c < 0 then FVal.negInf else FVal.nan
  | FVal.negInf => if 0 < c then FVal.negInf else if c < 0 then FVal.posInf else FVal.nan
  | FVal.nan => FVal.nan

/-- Float comparison `x > c` against a finite `c`. -/
def fgt (x : FVal) (c : ℚ) : Bool :=
  match x with
  | FVal.fin q => decide (c < q)
  | FVal.posInf => true
  | FVal.negInf => false
  | FVal.nan => false

/-- Float comparison `u < x` of a finite `u` against a float. -/
def flt (u : ℚ) (x : FVal) : Bool := fgt x u

/-- Truncation toward zero, the finite case of Go's `int(f)`. -/
def truncQ (q : ℚ) : Int := if 0 ≤ q then ⌊q⌋ else ⌈q⌉

/-- Conversion `int(f)`: truncation for a finite float; for `NaN` and the
infinities Go leaves the result to the implementation, which is `bad`. -/
def fToInt (bad : Int) (x : FVal) : Int :=
  match x with
  | FVal.fin q => truncQ q
  | _ => bad

/-! ## Data model -/

/-- Struct `ServerCrashConfig`. -/
structure ServerCrashConfig where
  HighCPULoadChance : ℚ
  MemoryLeakChance : ℚ
  NetworkDelayChance : ℚ
  ResourceExhaustionChance : ℚ
  BuildupDuration : Int
  CrashWindow : Int
  InitialDelay : Int
  deriving DecidableEq

/-- Struct `CrashState`. -/
structure CrashState where
  BuildupStartTime : Int
  ChaosEnabled : Bool
  ChaosCount : Int
  deriving DecidableEq

/-- The zero `CrashState{}`. -/
def CrashState.zero : CrashState := ⟨0, false, 0⟩

/-- The package-level variables. `chaosStates k = none` says that the map has
no entry for `k`, so that `chaosStates[k]` is a nil pointer. -/
structure State where
  config : ServerCrashConfig
  memoryHog : List UInt8
  chaosStates : String → Option CrashState
  currentCrashType : String
  lastChaosCheck : Int
  chaosStarted : Bool

/-- Variable `chaosInterval`, `5 * time.Second`; never assigned. -/
def chaosInterval : Int := 5 * second

/-- Map assignment `m[k] = v` (also a write through the pointer `m[k]`). -/
def setEntry (m : String → Option CrashState) (k : String) (v : CrashState) :
    String → Option CrashState :=
  fun j => if j = k then some v else m j

/-- The map literal that initialises `chaosStates`. -/
def initChaosStates : String → Option CrashState :=
  fun k =>
    if k = "HighCPULoad" then some CrashState.zero
    else if k = "MemoryLeak" then some CrashState.zero
    else if k = "NetworkDelay" then some CrashState.zero
    else if k = "ResourceExhaustion" then some CrashState.zero
    else none

/-- The package-level variables at process start, for a configuration whose
`InitialDelay` has been drawn. -/
def initState (cfg : ServerCrashConfig) : State :=
  { config := cfg
    memoryHog := []
    chaosStates := initChaosStates
    currentCrashType := ""
    lastChaosCheck := 0
    chaosStarted := false }

/-- The `config` literal of the source, with the drawn `rand.Intn(5*60)` made
explicit as `delaySeconds`. -/
def defaultConfig (delaySeconds : Int) : ServerCrashConfig :=
  { HighCPULoadChance := 5 / 100
    MemoryLeakChance := 3 / 100
    NetworkDelayChance := 6 / 100
    ResourceExhaustionChance := 4 / 100
    BuildupDuration := 35 * minute
    CrashWindow := 10 * minute
    InitialDelay := delaySeconds * second }

/-! ## What a request reads from its environment -/

/-- The clock readings of one `chaosHandler` call, one per call site, in the
order of the source. -/
structure Clock where
  /-- Line 100, `time.Since(lastChaosCheck)`. -/
  gate : Int
  /-- Line 101, `lastChaosCheck = time.Now()`. -/
  check : Int
  /-- Line 104, the inner `time.Now()`. -/
  delayBase : Int
  /-- Line 104, the outer `time.Since`. -/
  delayNow : Int
  /-- Line 106, the inner `time.Now()`. -/
  remBase : Int
  /-- Line 106, `time.Until`. -/
  remNow : Int
  /-- Line 114, `time.Now()` for the entry of each key of the map. -/
  warm : String → Int
  /-- Line 121, `time.Since` of the stabilisation test. -/
  stab : Int
  /-- Line 224, `time.Now()` in `selectCrashType`. -/
  sel : Int
  /-- Line 128, `time.Since(state.BuildupStartTime)`. -/
  elapsed : Int
  /-- Line 196, `time.Since` of the uptime in the healthy body. -/
  uptime : Int

/-- The random draws of one `chaosHandler` call, and the value the
implementation gives to `int(f)` of a non-finite float. -/
structure Rand where
  /-- Line 211, `rand.Float32()`. -/
  uSelect : ℚ
  /-- Line 150, `rand.Float32()`. -/
  uTrigger : ℚ
  /-- Line 273, the raw draw behind `rand.Intn`. -/
  kDelay : Nat
  /-- Line 261, `byte(rand.Intn(256))` for the byte at each index. -/
  bytes : Nat → UInt8
  /-- Result of `int(f)` for `f` infinite or `NaN`. -/
  badConv : Int

/-- Function `rand.Intn(n)` on the raw draw `k`: a panic (`none`) for `n ≤ 0`,
else a value of `[0, n)`. -/
def randIntn (k : Nat) (n : Int) : Option Nat :=
  if n ≤ 0 then none else some (k % n.toNat)

/-! ## What a request produces -/

/-- The text written to the response, one constructor per format string,
carrying the arguments of the format. -/
inductive Body where
  /-- Line 106. -/
  | initializing (remaining : Int)
  /-- Lines 171, 176, 181, 186. -/
  | failed (crashType : String) (count : Int)
  /-- Line 196. -/
  | running (crashType : String) (uptime : Int)
  /-- Line 198. -/
  | runningNoChaos
  /-- Line 232. -/
  | health (crashType : String) (uptime : Int)
  /-- Line 234. -/
  | healthNoChaos
  deriving DecidableEq

/-- How a handler call ends. -/
inductive Outcome where
  /-- The handler called `WriteHeader status` and wrote `body`. -/
  | wrote (status : Nat) (body : Body)
  /-- The handler returned having written nothing. -/
  | silent
  /-- The handler hijacked the connection, closed it and returned. -/
  | hijacked
  /-- A run-time panic, after `WriteHeader status` when `status` is given. -/
  | panicked (status : Option Nat)
  deriving DecidableEq

/-- The work an injector starts or does. -/
inductive Injection where
  /-- A goroutine looping `iterations` times. -/
  | cpu (iterations : Int)
  /-- A chunk of `chunkSize` bytes appended to `memoryHog`. -/
  | mem (chunkSize : Int)
  /-- The handler slept `delayMs` milliseconds. -/
  | net (delayMs : Nat)
  /-- `goroutines` goroutines, each sleeping two seconds. -/
  | res (goroutines : Int)
  deriving DecidableEq

/-- The package-level variables after a handler call, how the call ended and
what it injected. -/
structure Result where
  state : State
  outcome : Outcome
  injected : Option Injection

/-- A function call that either returns or panics, with the package-level
variables it leaves. -/
inductive Exec where
  | done (s : State)
  | panic (s : State)

/-- The package-level variables an `Exec` leaves. -/
def Exec.state : Exec → State
  | Exec.done s => s
  | Exec.panic s => s

/-! ## selectCrashType -/

/-- Sum `totalChance` of lines 204-205. -/
def totalChance (cfg : ServerCrashConfig) : ℚ :=
  cfg.HighCPULoadChance + cfg.MemoryLeakChance + cfg.NetworkDelayChance +
    cfg.ResourceExhaustionChance

/-- The `if` chain of lines 212-220 on the scaled draw `r`. -/
def pickCrashType (cfg : ServerCrashConfig) (r : ℚ) : String :=
  if r < cfg.HighCPULoadChance then "HighCPULoad"
  else if r < cfg.HighCPULoadChance + cfg.MemoryLeakChance then "MemoryLeak"
  else if r < cfg.HighCPULoadChance + cfg.MemoryLeakChance + cfg.NetworkDelayChance then
    "NetworkDelay"
  else "ResourceExhaustion"

/-- Function `selectCrashType`, with `now` the reading of line 224 and `u` the
draw of line 211. -/
def selectCrashType (now : Int) (u : ℚ) (s : State) : Exec :=
  if totalChance s.config ≤ 0 then Exec.done s
  else
    let c := pickCrashType s.config (u * totalChance s.config)
    let s1 := { s with currentCrashType := c }
    match s1.chaosStates c with
    | none => Exec.panic s1
    | some st =>
      if st.ChaosCount = 0 then
        Exec.done { s1 with chaosStates := setEntry s1.chaosStates c { st with BuildupStartTime := now } }
      else Exec.done s1

/-! ## The injectors -/

/-- The common shape `n := int(float64(cap) * (elapsed.Seconds() /
BuildupDuration.Seconds())); if n > cap { n = cap }` of the four injectors. -/
def scaledBy (cap : Int) (bad : Int) (cfg : ServerCrashConfig) (elapsed : Int) : Int :=
  let n := fToInt bad (fscale (cap : ℚ) (fdiv (seconds elapsed) (seconds cfg.BuildupDuration)))
  if n > cap then cap else n

/-- Function `simulateHighCPU`: the iteration count of the goroutine it starts. -/
def simulateHighCPU (bad : Int) (cfg : ServerCrashConfig) (elapsed : Int) : Int :=
  scaledBy 1000000 bad cfg elapsed

/-- Function `simulateMemoryLeak`: `make` panics on a negative `chunkSize`,
else the chunk is filled and appended to `memoryHog`. -/
def simulateMemoryLeak (rnd : Rand) (elapsed : Int) (s : State) : Exec × Int :=
  let chunkSize := scaledBy 1048576 rnd.badConv s.config elapsed
  if chunkSize < 0 then (Exec.panic s, chunkSize)
  else
    (Exec.done { s with memoryHog := s.memoryHog ++ (List.range chunkSize.toNat).map rnd.bytes },
      chunkSize)

/-- Bound `maxDelay` of lines 269-272. -/
def maxDelay (bad : Int) (cfg : ServerCrashConfig) (elapsed : Int) : Int :=
  scaledBy 500 bad cfg elapsed

/-- Function `simulateNetworkDelay`: the milliseconds slept, or `none` when
`rand.Intn(maxDelay)` panics. -/
def simulateNetworkDelay (rnd : Rand) (cfg : ServerCrashConfig) (elapsed : Int) :
    Option Nat :=
  randIntn rnd.kDelay (maxDelay rnd.badConv cfg elapsed)

/-- Function `simulateResourceExhaustion`: the number of goroutines of the
loop bound (none is started when it is not positive). -/
def simulateResourceExhaustion (bad : Int) (cfg : ServerCrashConfig) (elapsed : Int) : Int :=
  scaledBy 10 bad cfg elapsed

/-! ## chaosHandler -/

/-- Condition of line 100: the chaos evaluation tick is due. -/
def tickDue (clk : Clock) (s : State) : Bool :=
  decide (since clk.gate s.lastChaosCheck > chaosInterval)

/-- Condition of line 104. -/
def stillInitializing (clk : Clock) (s : State) : Bool :=
  !s.chaosStarted &&
    decide (since clk.delayNow (timeAdd clk.delayBase (durNeg s.config.InitialDelay)) < 0)

/-- Loop of lines 113-115: every entry of the map gets its own `time.Now()`. -/
def stampAll (warm : String → Int) (m : String → Option CrashState) :
    String → Option CrashState :=
  fun k => (m k).map fun st => { st with BuildupStartTime := warm k }

/-- Lines 194-199, the healthy response that ends `chaosHandler`. -/
def healthyResponse (clk : Clock) (s : State) : Result :=
  if s.currentCrashType ≠ "" then
    match s.chaosStates s.currentCrashType with
    | none => ⟨s, Outcome.panicked (some 200), none⟩
    | some st =>
      ⟨s, Outcome.wrote 200 (Body.running s.currentCrashType (since clk.uptime st.BuildupStartTime)),
        none⟩
  else ⟨s, Outcome.wrote 200 Body.runningNoChaos, none⟩

/-- Lines 121-123: selection, when no category is active and the
stabilisation delay has passed. -/
def selectionStage (clk : Clock) (rnd : Rand) (s : State) : Exec :=
  if s.currentCrashType = "" then
    match s.chaosStates "HighCPULoad" with
    | none => Exec.panic s
    | some st =>
      if since clk.stab st.BuildupStartTime > 10 * second then
        selectCrashType clk.sel rnd.uSelect s
      else Exec.done s
  else Exec.done s

/-- Lines 131-134: `progress`. -/
def progressOf (cfg : ServerCrashConfig) (elapsed : Int) : FVal :=
  let progress := fdiv (seconds elapsed) (seconds cfg.BuildupDuration)
  if fgt progress 1 then FVal.fin 1 else progress

/-- Lines 137-147: `effectiveChance`, the zero value when no case matches. -/
def effectiveChance (cfg : ServerCrashConfig) (c : String) (progress : FVal) : FVal :=
  if c = "HighCPULoad" then fscale 6 (fscale cfg.HighCPULoadChance progress)
  else if c = "MemoryLeak" then fscale 6 (fscale cfg.MemoryLeakChance progress)
  else if c = "NetworkDelay" then fscale 6 (fscale cfg.NetworkDelayChance progress)
  else if c = "ResourceExhaustion" then fscale 6 (fscale cfg.ResourceExhaustionChance progress)
  else FVal.fin 0

/-- Condition of line 150, with `u` the draw of `rand.Float32()`. -/
def triggered (st : CrashState) (u : ℚ) (chance : FVal) : Bool :=
  !st.ChaosEnabled || flt u chance

/-- Condition of line 155. -/
def crashDue (cfg : ServerCrashConfig) (elapsed : Int) : Bool :=
  decide (elapsed > durAdd cfg.BuildupDuration cfg.CrashWindow)

/-- Lines 166-188: the `switch` that runs the injector of the active category
and writes the 500 response; no case matches another string, and the handler
goes on to the healthy response. -/
def injectStage (clk : Clock) (rnd : Rand) (elapsed : Int) (count : Int) (s : State) :
    Result :=
  let c := s.currentCrashType
  if c = "HighCPULoad" then
    ⟨s, Outcome.wrote 500 (Body.failed c count),
      some (Injection.cpu (simulateHighCPU rnd.badConv s.config elapsed))⟩
  else if c = "MemoryLeak" then
    match simulateMemoryLeak rnd elapsed s with
    | (Exec.panic s1, _) => ⟨s1, Outcome.panicked none, none⟩
    | (Exec.done s1, n) => ⟨s1, Outcome.wrote 500 (Body.failed c count), some (Injection.mem n)⟩
  else if c = "NetworkDelay" then
    match simulateNetworkDelay rnd s.config elapsed with
    | none => ⟨s, Outcome.panicked none, none⟩
    | some d => ⟨s, Outcome.wrote 500 (Body.failed c count), some (Injection.net d)⟩
  else if c = "ResourceExhaustion" then
    ⟨s, Outcome.wrote 500 (Body.failed c count),
      some (Injection.res (simulateResourceExhaustion rnd.badConv s.config elapsed))⟩
  else healthyResponse clk s

/-- Lines 126-190: the buildup of the active category. -/
def buildupStage (clk : Clock) (rnd : Rand) (s : State) : Result :=
  match s.chaosStates s.currentCrashType with
  | none => ⟨s, Outcome.panicked none, none⟩
  | some st =>
    let elapsed := since clk.elapsed st.BuildupStartTime
    let chance := effectiveChance s.config s.currentCrashType (progressOf s.config elapsed)
    if triggered st rnd.uTrigger chance then
      let st1 := { st with ChaosEnabled := true, ChaosCount := st.ChaosCount + 1 }
      let s1 := { s with chaosStates := setEntry s.chaosStates s.currentCrashType st1 }
      if crashDue s.config elapsed then ⟨s1, Outcome.hijacked, none⟩
      else injectStage clk rnd elapsed st1.ChaosCount s1
    else healthyResponse clk s

/-- Function `chaosHandler`. -/
def chaosHandler (clk : Clock) (rnd : Rand) (s : State) : Result :=
  if tickDue clk s then
    let s1 := { s with lastChaosCheck := clk.check }
    if stillInitializing clk s1 then
      ⟨s1, Outcome.wrote 200
        (Body.initializing (timeUntil clk.remNow (timeAdd clk.remBase s1.config.InitialDelay))),
        none⟩
    else if !s1.chaosStarted then
      ⟨{ s1 with chaosStarted := true, chaosStates := stampAll clk.warm s1.chaosStates },
        Outcome.silent, none⟩
    else
      match selectionStage clk rnd s1 with
      | Exec.panic s2 => ⟨s2, Outcome.panicked none, none⟩
      | Exec.done s2 =>
        if s2.currentCrashType ≠ "" then buildupStage clk rnd s2
        else healthyResponse clk s2
  else healthyResponse clk s

/-! ## healthCheck and the recovery step of startServer -/

/-- Function `healthCheck`, with `now` the reading of `time.Since` in line 232. -/
def healthCheck (now : Int) (s : State) : Result :=
  if s.currentCrashType ≠ "" then
    match s.chaosStates s.currentCrashType with
    | none => ⟨s, Outcome.panicked (some 200), none⟩
    | some st =>
      ⟨s, Outcome.wrote 200 (Body.health s.currentCrashType (since now st.BuildupStartTime)), none⟩
  else ⟨s, Outcome.wrote 200 Body.healthNoChaos, none⟩

/-- Lines 79-94 of `startServer`: the body of the loop after `ListenAndServe`
has returned. -/
def crashRecovery (s : State) : State :=
  let s1 :=
    if s.currentCrashType ≠ "" then
      { s with
        chaosStates := setEntry s.chaosStates s.currentCrashType ⟨0, false, 0⟩
        currentCrashType := "" }
    else s
  { s1 with chaosStarted := false }

/-! ## Runs -/

/-- One thing that happens to the server. -/
inductive Event where
  /-- A request to `/`. -/
  | root (clk : Clock) (rnd : Rand)
  /-- A request to `/health`. -/
  | health (now : Int)
  /-- The serve loop returned and the recovery step ran. -/
  | recover

/-- The package-level variables after one event, and the outcome of the
request when the event is one. -/
def step (s : State) : Event → State × Option Outcome
  | Event.root clk rnd => ((chaosHandler clk rnd s).state, some (chaosHandler clk rnd s).outcome)
  | Event.health now => ((healthCheck now s).state, some (healthCheck now s).outcome)
  | Event.recover => (crashRecovery s, none)

/-- The package-level variables after a sequence of events. -/
def run (s : State) : List Event → State
  | [] => s
  | e :: es => run (step s e).1 es

/-- The outcomes of the requests of a sequence of events, in order (`none`
for a recovery step). -/
def outcomes (s : State) : List Event → List (Option Outcome)
  | [] => []
  | e :: es => (step s e).2 :: outcomes (step s e).1 es

/-! ## Notions used to state the properties -/

/-- The four keys of `chaosStates`, the only strings ever assigned to
`currentCrashType` besides the empty one. -/
def IsCategory (c : String) : Prop :=
  c = "HighCPULoad" ∨ c = "MemoryLeak" ∨ c = "NetworkDelay" ∨ c = "ResourceExhaustion"

instance (c : String) : Decidable (IsCategory c) := by
  unfold IsCategory
  infer_instance

/-- The map has an entry for each of the four categories. -/
def HasAllKeys (m : String → Option CrashState) : Prop :=
  (m "HighCPULoad").isSome = true ∧ (m "MemoryLeak").isSome = true ∧
    (m "NetworkDelay").isSome = true ∧ (m "ResourceExhaustion").isSome = true

instance (m : String → Option CrashState) : Decidable (HasAllKeys m) := by
  unfold HasAllKeys
  infer_instance

/-- The shape of the package-level variables that the program keeps: the four
entries exist and `currentCrashType` is empty or names one of them. -/
def WellFormed (s : State) : Prop :=
  HasAllKeys s.chaosStates ∧ (s.currentCrashType = "" ∨ IsCategory s.currentCrashType)

instance (s : State) : Decidable (WellFormed s) := by
  unfold WellFormed
  infer_instance

/-- Every entry of the map other than the one of the active category has never
triggered: its `ChaosCount` is 0 and its `ChaosEnabled` is false. -/
def Quiet (s : State) : Prop :=
  ∀ k st, k ≠ s.currentCrashType → s.chaosStates k = some st →
    st.ChaosCount = 0 ∧ st.ChaosEnabled = false

/-- What holds of the package-level variables along every run: they are well
formed, the map has no entry besides those of the four categories, a category
is active only after warm-up, and the other categories are quiet. -/
def Sound (s : State) : Prop :=
  WellFormed s ∧ (∀ k st, s.chaosStates k = some st → IsCategory k) ∧
    (s.currentCrashType ≠ "" → s.chaosStarted = true) ∧ Quiet s

/-- The event is a request, to `/` or to `/health`. -/
def Event.isRequest : Event → Bool
  | Event.root _ _ => true
  | Event.health _ => true
  | Event.recover => false

/-- The work that the injector of category `c` does at elapsed time `elapsed`
when its arguments are valid (`simulateHighCPU` for another string). -/
def injectionOf (rnd : Rand) (cfg : ServerCrashConfig) (c : String) (elapsed : Int) : Injection :=
  if c = "MemoryLeak" then Injection.mem (scaledBy 1048576 rnd.badConv cfg elapsed)
  else if c = "NetworkDelay" then
    Injection.net (rnd.kDelay % (maxDelay rnd.badConv cfg elapsed).toNat)
  else if c = "ResourceExhaustion" then
    Injection.res (simulateResourceExhaustion rnd.badConv cfg elapsed)
  else Injection.cpu (simulateHighCPU rnd.badConv cfg elapsed)

/-- The arguments that the injector of category `c` hands to `rand.Intn` and
to `make` are ones these accept. -/
def InjectorArgsValid (rnd : Rand) (cfg : ServerCrashConfig) (c : String) (elapsed : Int) : Prop :=
  (c = "NetworkDelay" → 0 < maxDelay rnd.badConv cfg elapsed) ∧
    (c = "MemoryLeak" → 0 ≤ scaledBy 1048576 rnd.badConv cfg elapsed)

/-- The four base chances of a configuration are 0. -/
def AllChancesZero (cfg : ServerCrashConfig) : Prop :=
  cfg.HighCPULoadChance = 0 ∧ cfg.MemoryLeakChance = 0 ∧ cfg.NetworkDelayChance = 0 ∧
    cfg.ResourceExhaustionChance = 0

/-- The variables of a server that can select nothing: the base chances are
0, no category is active and the four entries exist. -/
def IdleForever (s : State) : Prop :=
  AllChancesZero s.config ∧ s.currentCrashType = "" ∧ HasAllKeys s.chaosStates

/-- The base chance that `config` holds for a category (0 for another string). -/
def baseChance (cfg : ServerCrashConfig) (c : String) : ℚ :=
  if c = "HighCPULoad" then cfg.HighCPULoadChance
  else if c = "MemoryLeak" then cfg.MemoryLeakChance
  else if c = "NetworkDelay" then cfg.NetworkDelayChance
  else if c = "ResourceExhaustion" then cfg.ResourceExhaustionChance
  else 0

/-- The status line a handler call has sent, if any. -/
def Outcome.status : Outcome → Option Nat
  | Outcome.wrote st _ => some st
  | Outcome.silent => none
  | Outcome.hijacked => none
  | Outcome.panicked st => st

/-! ## Concrete inputs -/

/-- A wall-clock reading in the year 2026. -/
def sampleNow : Int := 63900000000 * second

/-- A clock whose readings during one request all equal `t`. -/
def clockAt (t : Int) : Clock :=
  { gate := t, check := t, delayBase := t, delayNow := t, remBase := t, remNow := t,
    warm := fun _ => t, stab := t, sel := t, elapsed := t, uptime := t }

/-- Random draws that are all zero, except `uSelect` which is `u`. -/
def drawsWith (u : ℚ) : Rand :=
  { uSelect := u, uTrigger := 0, kDelay := 0, bytes := fun _ => 0, badConv := 0 }

/-- The package-level variables in a cycle whose active category is the memory
leak, selected and first triggered at `sampleNow + 11 * second`. -/
def leakingState : State :=
  { config := defaultConfig 5
    memoryHog := []
    chaosStates := setEntry (stampAll (fun _ => sampleNow) initChaosStates) "MemoryLeak"
      ⟨sampleNow + 11 * second, true, 1⟩
    currentCrashType := "MemoryLeak"
    lastChaosCheck := sampleNow + 11 * second
    chaosStarted := true }

/-- The package-level variables in a cycle whose active category is the CPU
load, selected at `sampleNow + 11 * second` and triggered four times since. -/
def burningState : State :=
  { config := defaultConfig 5
    memoryHog := []
    chaosStates := setEntry (stampAll (fun _ => sampleNow) initChaosStates) "HighCPULoad"
      ⟨sampleNow + 11 * second, true, 4⟩
    currentCrashType := "HighCPULoad"
    lastChaosCheck := sampleNow + 40 * minute
    chaosStarted := true }

/-- The configuration of the source with the four base chances set to 0. -/
def zeroChanceConfig : ServerCrashConfig :=
  { HighCPULoadChance := 0
    MemoryLeakChance := 0
    NetworkDelayChance := 0
    ResourceExhaustionChance := 0
    BuildupDuration := 35 * minute
    CrashWindow := 10 * minute
    InitialDelay := 5 * second }

/-- A clock whose readings during one request advance by a microsecond from
one call site to the next, starting at `t`. -/
def tickingClock (t : Int) : Clock :=
  { gate := t, check := t + 1000, delayBase := t + 2000, delayNow := t + 3000,
    remBase := t + 4000, remNow := t + 5000, warm := fun _ => t + 6000, stab := t + 7000,
    sel := t + 8000, elapsed := t + 9000, uptime := t + 10000 }

/-- The package-level variables after the first request to `/`, made at
`sampleNow` right at process start with an initial delay of five seconds. -/
def warmedState : State :=
  (chaosHandler (clockAt sampleNow) (drawsWith 0) (initState (defaultConfig 5))).state


/-- The configuration of the source with `BuildupDuration` and `CrashWindow`
set to 0. -/
def zeroDurationConfig : ServerCrashConfig :=
  { HighCPULoadChance := 5 / 100
    MemoryLeakChance := 3 / 100
    NetworkDelayChance := 6 / 100
    ResourceExhaustionChance := 4 / 100
    BuildupDuration := 0
    CrashWindow := 0
    InitialDelay := 5 * second }

/-- The package-level variables of a server with the zero durations after the
first request to `/`, made at `sampleNow` right at process start. -/
def zeroDurationState : State :=
  (chaosHandler (clockAt sampleNow) (drawsWith 0) (initState zeroDurationConfig)).state

/-- The run of a server with the configuration of the source: warm-up at
`sampleNow`, then the tick that selects the memory leak eleven seconds later. -/
def leakRun : List Event :=
  [Event.root (clockAt sampleNow) (drawsWith 0),
   Event.root (tickingClock (sampleNow + 11 * second)) (drawsWith (1 / 3))]

/-- Requests that follow `leakRun`: one to `/health` and a tick of `/`. -/
def laterRequests : List Event :=
  [Event.health (sampleNow + 12 * second),
   Event.root (tickingClock (sampleNow + 20 * second)) (drawsWith 0)]

/-! ## Lemmas on time -/

theorem timeSub_gt_iff (t u c : Int) (hlo : minDuration ≤ c) (hhi : c < maxDuration) :
    timeSub t u > c ↔ t - u > c := by
  unfold timeSub
  unfold minDuration at hlo
  unfold maxDuration at hhi
  simp only [minDuration, maxDuration]
  split_ifs <;> omega

theorem wrapInt64_of_inRange (x : Int) (hlo : minDuration ≤ x) (hhi : x ≤ maxDuration) :
    wrapInt64 x = x := by
  unfold minDuration at hlo
  unfold maxDuration at hhi
  unfold wrapInt64
  omega

/-! ## Frame lemmas -/

theorem healthyResponse_state (clk : Clock) (s : State) : (healthyResponse clk s).state = s := by
  unfold healthyResponse
  split_ifs
  · cases h : s.chaosStates s.currentCrashType <;> simp
  · rfl

theorem selectCrashType_lastChaosCheck (now : Int) (u : ℚ) (s : State) :
    (selectCrashType now u s).state.lastChaosCheck = s.lastChaosCheck := by
  unfold selectCrashType
  split_ifs
  · rfl
  · simp only
    cases h : s.chaosStates (pickCrashType s.config (u * totalChance s.config)) with
    | none => simp [Exec.state]
    | some st => simp only []; split_ifs <;> simp [Exec.state]

theorem selectionStage_lastChaosCheck (clk : Clock) (rnd : Rand) (s : State) :
    (selectionStage clk rnd s).state.lastChaosCheck = s.lastChaosCheck := by
  unfold selectionStage
  split_ifs
  · cases h : s.chaosStates "HighCPULoad" with
    | none => simp [Exec.state]
    | some st =>
      simp only []
      split_ifs
      · exact selectCrashType_lastChaosCheck _ _ _
      · rfl
  · rfl

theorem injectStage_lastChaosCheck (clk : Clock) (rnd : Rand) (e : Int) (n : Int) (s : State) :
    (injectStage clk rnd e n s).state.lastChaosCheck = s.lastChaosCheck := by
  unfold injectStage
  simp only
  split_ifs
  · rfl
  · unfold simulateMemoryLeak
    simp only
    split_ifs <;> rfl
  · cases simulateNetworkDelay rnd s.config e <;> rfl
  · rfl
  · rw [healthyResponse_state]

theorem buildupStage_lastChaosCheck (clk : Clock) (rnd : Rand) (s : State) :
    (buildupStage clk rnd s).state.lastChaosCheck = s.lastChaosCheck := by
  unfold buildupStage
  cases h : s.chaosStates s.currentCrashType with
  | none => rfl
  | some st =>
    simp only
    split_ifs
    · rfl
    · rw [injectStage_lastChaosCheck]
    · rw [healthyResponse_state]

theorem chaosHandler_lastChaosCheck (clk : Clock) (rnd : Rand) (s : State) :
    (chaosHandler clk rnd s).state.lastChaosCheck =
      if tickDue clk s = true then clk.check else s.lastChaosCheck := by
  unfold chaosHandler
  by_cases hd : tickDue clk s = true
  · simp only [hd, if_true]
    split_ifs
    · rfl
    · rfl
    · have h := selectionStage_lastChaosCheck clk rnd { s with lastChaosCheck := clk.check }
      cases hs : selectionStage clk rnd { s with lastChaosCheck := clk.check } with
      | panic s2 => rw [hs] at h; simpa [Exec.state] using h
      | done s2 =>
        rw [hs] at h
        simp only [Exec.state] at h
        simp only
        split_ifs
        · rw [buildupStage_lastChaosCheck]; exact h
        · rw [healthyResponse_state]; exact h
  · rw [if_neg hd, if_neg hd, healthyResponse_state]

theorem chaosHandler_of_not_due (clk : Clock) (rnd : Rand) (s : State)
    (hd : tickDue clk s = false) : chaosHandler clk rnd s = healthyResponse clk s := by
  unfold chaosHandler
  simp [hd]

theorem tickDue_iff (clk : Clock) (s : State) :
    tickDue clk s = true ↔ clk.gate - s.lastChaosCheck > chaosInterval := by
  unfold tickDue since
  rw [decide_eq_true_iff]
  apply timeSub_gt_iff
  · unfold minDuration chaosInterval second; omega
  · unfold maxDuration chaosInterval second; omega

/-! ## Well-formed variables and the outcomes of the stages -/

theorem lookup_of_hasAllKeys {m : String → Option CrashState} {c : String}
    (hm : HasAllKeys m) (hc : IsCategory c) : ∃ st, m c = some st := by
  obtain ⟨h1, h2, h3, h4⟩ := hm
  rcases hc with rfl | rfl | rfl | rfl
  · exact Option.isSome_iff_exists.1 h1
  · exact Option.isSome_iff_exists.1 h2
  · exact Option.isSome_iff_exists.1 h3
  · exact Option.isSome_iff_exists.1 h4

theorem hasAllKeys_setEntry {m : String → Option CrashState} (k : String) (v : CrashState)
    (hm : HasAllKeys m) : HasAllKeys (setEntry m k v) := by
  obtain ⟨h1, h2, h3, h4⟩ := hm
  unfold HasAllKeys setEntry
  refine ⟨?_, ?_, ?_, ?_⟩ <;> (beta_reduce; split_ifs <;> simp [*])

theorem hasAllKeys_stampAll {m : String → Option CrashState} (warm : String → Int)
    (hm : HasAllKeys m) : HasAllKeys (stampAll warm m) := by
  obtain ⟨h1, h2, h3, h4⟩ := hm
  unfold HasAllKeys stampAll
  simp [*]

theorem hasAllKeys_init : HasAllKeys initChaosStates := by decide

theorem pickCrashType_isCategory (cfg : ServerCrashConfig) (r : ℚ) :
    IsCategory (pickCrashType cfg r) := by
  unfold pickCrashType IsCategory
  split_ifs <;> simp

theorem isCategory_ne_empty {c : String} (hc : IsCategory c) : c ≠ "" := by
  rcases hc with rfl | rfl | rfl | rfl <;> decide

/-- On well-formed variables `selectCrashType` returns, and leaves them well formed. -/
theorem selectCrashType_wellFormed (now : Int) (u : ℚ) (s : State) (hs : WellFormed s) :
    ∃ s2, selectCrashType now u s = Exec.done s2 ∧ WellFormed s2 := by
  unfold selectCrashType
  split_ifs with ht
  · exact ⟨s, rfl, hs⟩
  · obtain ⟨st, hst⟩ := lookup_of_hasAllKeys hs.1
      (pickCrashType_isCategory s.config (u * totalChance s.config))
    simp only [hst]
    split_ifs
    · exact ⟨_, rfl, hasAllKeys_setEntry _ _ hs.1, Or.inr (pickCrashType_isCategory _ _)⟩
    · exact ⟨_, rfl, hs.1, Or.inr (pickCrashType_isCategory _ _)⟩

theorem selectionStage_wellFormed (clk : Clock) (rnd : Rand) (s : State) (hs : WellFormed s) :
    ∃ s2, selectionStage clk rnd s = Exec.done s2 ∧ WellFormed s2 := by
  unfold selectionStage
  split_ifs with hc
  · obtain ⟨st, hst⟩ := lookup_of_hasAllKeys hs.1 (Or.inl rfl)
    simp only [hst]
    split_ifs
    · exact selectCrashType_wellFormed _ _ s hs
    · exact ⟨s, rfl, hs⟩
  · exact ⟨s, rfl, hs⟩

theorem healthyResponse_outcome (clk : Clock) (s : State) :
    (healthyResponse clk s).outcome = Outcome.panicked (some 200) ∨
      ∃ body, (healthyResponse clk s).outcome = Outcome.wrote 200 body := by
  unfold healthyResponse
  split_ifs
  · cases h : s.chaosStates s.currentCrashType with
    | none => exact Or.inl rfl
    | some st => exact Or.inr ⟨_, rfl⟩
  · exact Or.inr ⟨_, rfl⟩

theorem healthyResponse_wrote (clk : Clock) (s : State) (hs : WellFormed s) :
    ∃ body, (healthyResponse clk s).outcome = Outcome.wrote 200 body := by
  unfold healthyResponse
  split_ifs with hc
  · rcases hs.2 with h | h
    · exact absurd h hc
    · obtain ⟨st, hst⟩ := lookup_of_hasAllKeys hs.1 h
      simp only [hst]
      exact ⟨_, rfl⟩
  · exact ⟨_, rfl⟩

theorem injectStage_outcome (clk : Clock) (rnd : Rand) (e n : Int) (s : State) :
    (∃ p, (injectStage clk rnd e n s).outcome = Outcome.panicked p) ∨
      ∃ status body, (injectStage clk rnd e n s).outcome = Outcome.wrote status body := by
  unfold injectStage
  simp only
  split_ifs
  · exact Or.inr ⟨_, _, rfl⟩
  · unfold simulateMemoryLeak
    simp only
    split_ifs
    · exact Or.inl ⟨_, rfl⟩
    · exact Or.inr ⟨_, _, rfl⟩
  · cases simulateNetworkDelay rnd s.config e with
    | none => exact Or.inl ⟨_, rfl⟩
    | some d => exact Or.inr ⟨_, _, rfl⟩
  · exact Or.inr ⟨_, _, rfl⟩
  · rcases healthyResponse_outcome clk s with h | ⟨b, h⟩
    · exact Or.inl ⟨_, h⟩
    · exact Or.inr ⟨_, _, h⟩

theorem chaosHandler_of_started (clk : Clock) (rnd : Rand) (s : State)
    (hd : tickDue clk s = true) (hs : s.chaosStarted = true) :
    chaosHandler clk rnd s =
      match selectionStage clk rnd { s with lastChaosCheck := clk.check } with
      | Exec.panic s2 => ⟨s2, Outcome.panicked none, none⟩
      | Exec.done s2 =>
        if s2.currentCrashType ≠ "" then buildupStage clk rnd s2 else healthyResponse clk s2 := by
  unfold chaosHandler
  simp [hd, hs, stillInitializing]

theorem healthyResponse_ne_hijacked (clk : Clock) (s : State) :
    (healthyResponse clk s).outcome ≠ Outcome.hijacked := by
  intro h
  rcases healthyResponse_outcome clk s with hp | ⟨b, hp⟩ <;> rw [hp] at h <;> cases h

theorem injectStage_ne_hijacked (clk : Clock) (rnd : Rand) (e n : Int) (s : State) :
    (injectStage clk rnd e n s).outcome ≠ Outcome.hijacked := by
  intro h
  rcases injectStage_outcome clk rnd e n s with ⟨p, hp⟩ | ⟨a, b, hp⟩ <;> rw [hp] at h <;> cases h

theorem buildupStage_hijacked_iff (clk : Clock) (rnd : Rand) (s : State) (st : CrashState)
    (hst : s.chaosStates s.currentCrashType = some st) :
    (buildupStage clk rnd s).outcome = Outcome.hijacked ↔
      triggered st rnd.uTrigger (effectiveChance s.config s.currentCrashType
        (progressOf s.config (since clk.elapsed st.BuildupStartTime))) = true ∧
      crashDue s.config (since clk.elapsed st.BuildupStartTime) = true := by
  unfold buildupStage
  simp only [hst]
  split_ifs with ht hc
  · simp [ht, hc]
  · constructor
    · intro h
      exact absurd h (injectStage_ne_hijacked _ _ _ _ _)
    · intro h
      exact absurd h.2 hc
  · constructor
    · intro h
      exact absurd h (healthyResponse_ne_hijacked _ _)
    · intro h
      exact absurd h.1 ht

theorem chaosHandler_of_not_started (clk : Clock) (rnd : Rand) (s : State)
    (hd : tickDue clk s = true) (hs : s.chaosStarted = false) :
    chaosHandler clk rnd s =
      if stillInitializing clk s = true then
        ⟨{ s with lastChaosCheck := clk.check }, Outcome.wrote 200
          (Body.initializing (timeUntil clk.remNow (timeAdd clk.remBase s.config.InitialDelay))),
          none⟩
      else
        ⟨{ s with lastChaosCheck := clk.check, chaosStarted := true,
                  chaosStates := stampAll clk.warm s.chaosStates }, Outcome.silent, none⟩ := by
  unfold chaosHandler stillInitializing
  rw [if_pos hd]
  simp [hs]

theorem eq_false_of_not_true {b : Bool} (h : ¬ b = true) : b = false := by
  cases b
  · rfl
  · exact absurd rfl h

theorem warmedState_config : warmedState.config = defaultConfig 5 := rfl

theorem warmedState_eq : warmedState =
    { config := defaultConfig 5, memoryHog := [],
      chaosStates := stampAll (fun _ => sampleNow) initChaosStates,
      currentCrashType := "", lastChaosCheck := sampleNow, chaosStarted := true } := rfl

/-! ## Further lemmas on the handlers and the arithmetic -/

theorem healthCheck_state (now : Int) (s : State) : (healthCheck now s).state = s := by
  unfold healthCheck
  split_ifs
  · cases h : s.chaosStates s.currentCrashType <;> rfl
  · rfl

theorem progressOf_eq (cfg : ServerCrashConfig) (elapsed : Int) (hB : 0 < cfg.BuildupDuration) :
    progressOf cfg elapsed =
      FVal.fin (min ((elapsed : ℚ) / (cfg.BuildupDuration : ℚ)) 1) := by
  have hB' : (0 : ℚ) < (cfg.BuildupDuration : ℚ) := by exact_mod_cast hB
  have hs : seconds cfg.BuildupDuration ≠ 0 := by
    unfold seconds
    positivity
  have hq : seconds elapsed / seconds cfg.BuildupDuration =
      (elapsed : ℚ) / (cfg.BuildupDuration : ℚ) := by
    unfold seconds
    field_simp
  unfold progressOf fdiv
  simp only [hs, if_false, hq, fgt]
  by_cases h : (1 : ℚ) < (elapsed : ℚ) / (cfg.BuildupDuration : ℚ)
  · simp [h, min_eq_right h.le]
  · simp [h, min_eq_left (not_lt.1 h)]

theorem effectiveChance_fin (cfg : ServerCrashConfig) (c : String) (p : ℚ) (hc : IsCategory c) :
    effectiveChance cfg c (FVal.fin p) = FVal.fin (6 * (baseChance cfg c * p)) := by
  unfold effectiveChance baseChance fscale
  rcases hc with rfl | rfl | rfl | rfl <;> simp

theorem scaledBy_full (cap bad : Int) (cfg : ServerCrashConfig)
    (hB : 0 < cfg.BuildupDuration) (hcap : 0 ≤ cap) :
    scaledBy cap bad cfg cfg.BuildupDuration = cap := by
  have hs : seconds cfg.BuildupDuration ≠ 0 := by
    have hB' : (0 : ℚ) < (cfg.BuildupDuration : ℚ) := by exact_mod_cast hB
    unfold seconds
    positivity
  have hcap' : (0 : ℚ) ≤ (cap : ℚ) := by exact_mod_cast hcap
  unfold scaledBy fdiv
  simp only [hs, if_false, div_self hs, fscale, fToInt, truncQ, mul_one]
  rw [if_pos hcap', Int.floor_intCast]
  simp

theorem crashRecovery_memoryHog (s : State) : (crashRecovery s).memoryHog = s.memoryHog := by
  unfold crashRecovery
  split_ifs <;> rfl

theorem crashRecovery_of_idle (s : State) (h : s.currentCrashType = "") :
    crashRecovery s = { s with chaosStarted := false } := by
  unfold crashRecovery
  simp [h]


/-! ## Well-formedness along a run, and the stages of an active tick -/

theorem injectStage_wellFormed (clk : Clock) (rnd : Rand) (e n : Int) (s : State)
    (hs : WellFormed s) : WellFormed (injectStage clk rnd e n s).state := by
  unfold injectStage
  simp only
  split_ifs
  · exact hs
  · unfold simulateMemoryLeak
    simp only
    split_ifs
    · exact hs
    · exact hs
  · cases simulateNetworkDelay rnd s.config e <;> exact hs
  · exact hs
  · rw [healthyResponse_state]; exact hs

theorem buildupStage_wellFormed (clk : Clock) (rnd : Rand) (s : State)
    (hs : WellFormed s) : WellFormed (buildupStage clk rnd s).state := by
  unfold buildupStage
  cases hst : s.chaosStates s.currentCrashType with
  | none => exact hs
  | some st =>
    simp only
    split_ifs
    · exact ⟨hasAllKeys_setEntry _ _ hs.1, hs.2⟩
    · exact injectStage_wellFormed _ _ _ _ _ ⟨hasAllKeys_setEntry _ _ hs.1, hs.2⟩
    · rw [healthyResponse_state]; exact hs

theorem chaosHandler_wellFormed (clk : Clock) (rnd : Rand) (s : State)
    (hs : WellFormed s) : WellFormed (chaosHandler clk rnd s).state := by
  by_cases hd : tickDue clk s = true
  · by_cases hst : s.chaosStarted = true
    · have hs1 : WellFormed { s with lastChaosCheck := clk.check } := hs
      obtain ⟨s2, hsel, hs2⟩ := selectionStage_wellFormed clk rnd _ hs1
      rw [chaosHandler_of_started clk rnd s hd hst, hsel]
      simp only
      split_ifs
      · exact buildupStage_wellFormed _ _ _ hs2
      · rw [healthyResponse_state]; exact hs2
    · rw [chaosHandler_of_not_started clk rnd s hd (eq_false_of_not_true hst)]
      split_ifs
      · exact hs
      · exact ⟨hasAllKeys_stampAll _ hs.1, hs.2⟩
  · rw [chaosHandler_of_not_due clk rnd s (eq_false_of_not_true hd), healthyResponse_state]
    exact hs

theorem crashRecovery_wellFormed (s : State) (hs : WellFormed s) :
    WellFormed (crashRecovery s) := by
  unfold crashRecovery
  split_ifs
  · exact ⟨hasAllKeys_setEntry _ _ hs.1, Or.inl rfl⟩
  · exact hs

theorem step_wellFormed (s : State) (e : Event) (hs : WellFormed s) :
    WellFormed (step s e).1 := by
  cases e with
  | root clk rnd => exact chaosHandler_wellFormed clk rnd s hs
  | health now =>
    simp only [step, healthCheck_state]
    exact hs
  | recover => exact crashRecovery_wellFormed s hs

/-- Every state that a run from the initial variables reaches is well formed. -/
theorem run_wellFormed (cfg : ServerCrashConfig) (es : List Event) :
    WellFormed (run (initState cfg) es) := by
  have h : ∀ (es : List Event) (s : State), WellFormed s → WellFormed (run s es) := by
    intro es
    induction es with
    | nil => exact fun s hs => hs
    | cons e rest ih => exact fun s hs => ih _ (step_wellFormed s e hs)
  exact h es _ ⟨hasAllKeys_init, Or.inl rfl⟩

theorem chaosHandler_of_active (clk : Clock) (rnd : Rand) (s : State)
    (hd : tickDue clk s = true) (hs : s.chaosStarted = true) (hc : s.currentCrashType ≠ "") :
    chaosHandler clk rnd s = buildupStage clk rnd { s with lastChaosCheck := clk.check } := by
  rw [chaosHandler_of_started clk rnd s hd hs]
  have hsel : selectionStage clk rnd { s with lastChaosCheck := clk.check } =
      Exec.done { s with lastChaosCheck := clk.check } := by
    unfold selectionStage
    rw [if_neg hc]
  rw [hsel]
  simp only
  rw [if_pos hc]

theorem buildupStage_of_triggered (clk : Clock) (rnd : Rand) (s : State) (st : CrashState)
    (hst : s.chaosStates s.currentCrashType = some st)
    (ht : triggered st rnd.uTrigger (effectiveChance s.config s.currentCrashType
      (progressOf s.config (since clk.elapsed st.BuildupStartTime))) = true)
    (hc : crashDue s.config (since clk.elapsed st.BuildupStartTime) = false) :
    buildupStage clk rnd s =
      injectStage clk rnd (since clk.elapsed st.BuildupStartTime) (st.ChaosCount + 1)
        { s with chaosStates := setEntry s.chaosStates s.currentCrashType
                  { st with ChaosEnabled := true, ChaosCount := st.ChaosCount + 1 } } := by
  unfold buildupStage
  simp only [hst]
  rw [if_pos ht, hc]
  simp


/-! ## The variables along a run -/

theorem selectCrashType_eq (now : Int) (u : ℚ) (s : State) (st : CrashState)
    (hS : 0 < totalChance s.config)
    (hst : s.chaosStates (pickCrashType s.config (u * totalChance s.config)) = some st)
    (hcount : st.ChaosCount = 0) :
    selectCrashType now u s =
      Exec.done { s with currentCrashType := pickCrashType s.config (u * totalChance s.config),
                         chaosStates := setEntry s.chaosStates
                           (pickCrashType s.config (u * totalChance s.config))
                           { st with BuildupStartTime := now } } := by
  unfold selectCrashType
  rw [if_neg (not_le.2 hS)]
  simp only [hst, hcount, if_true]

theorem selectionStage_cases (clk : Clock) (rnd : Rand) (s : State) :
    selectionStage clk rnd s = Exec.done s ∨ selectionStage clk rnd s = Exec.panic s ∨
    (s.currentCrashType = "" ∧ 0 < totalChance s.config ∧
      (∃ st0, s.chaosStates "HighCPULoad" = some st0 ∧
        since clk.stab st0.BuildupStartTime > 10 * second) ∧
      selectionStage clk rnd s = selectCrashType clk.sel rnd.uSelect s) := by
  unfold selectionStage
  split_ifs with hc
  · cases h0 : s.chaosStates "HighCPULoad" with
    | none => exact Or.inr (Or.inl rfl)
    | some st0 =>
      simp only
      split_ifs with hg
      · by_cases hS : 0 < totalChance s.config
        · exact Or.inr (Or.inr ⟨hc, hS, ⟨st0, rfl, hg⟩, rfl⟩)
        · left
          unfold selectCrashType
          rw [if_pos (not_lt.1 hS)]
      · exact Or.inl rfl
  · exact Or.inl rfl

theorem injectStage_frame (clk : Clock) (rnd : Rand) (e n : Int) (s : State) :
    (injectStage clk rnd e n s).state.config = s.config ∧
    (injectStage clk rnd e n s).state.chaosStates = s.chaosStates ∧
    (injectStage clk rnd e n s).state.currentCrashType = s.currentCrashType ∧
    (injectStage clk rnd e n s).state.chaosStarted = s.chaosStarted := by
  unfold injectStage
  simp only
  split_ifs
  · exact ⟨rfl, rfl, rfl, rfl⟩
  · unfold simulateMemoryLeak
    simp only
    split_ifs <;> exact ⟨rfl, rfl, rfl, rfl⟩
  · cases simulateNetworkDelay rnd s.config e <;> exact ⟨rfl, rfl, rfl, rfl⟩
  · exact ⟨rfl, rfl, rfl, rfl⟩
  · rw [healthyResponse_state]
    exact ⟨rfl, rfl, rfl, rfl⟩

theorem buildupStage_frame (clk : Clock) (rnd : Rand) (s : State) (st : CrashState)
    (hst : s.chaosStates s.currentCrashType = some st) :
    (buildupStage clk rnd s).state.config = s.config ∧
    (buildupStage clk rnd s).state.currentCrashType = s.currentCrashType ∧
    (buildupStage clk rnd s).state.chaosStarted = s.chaosStarted ∧
    (buildupStage clk rnd s).state.chaosStates =
      (if triggered st rnd.uTrigger (effectiveChance s.config s.currentCrashType
          (progressOf s.config (since clk.elapsed st.BuildupStartTime))) = true then
        setEntry s.chaosStates s.currentCrashType
          { st with ChaosEnabled := true, ChaosCount := st.ChaosCount + 1 }
      else s.chaosStates) := by
  unfold buildupStage
  simp only [hst]
  split_ifs with ht hc
  · exact ⟨rfl, rfl, rfl, rfl⟩
  · have h := injectStage_frame clk rnd (since clk.elapsed st.BuildupStartTime)
      (st.ChaosCount + 1) { s with chaosStates := setEntry s.chaosStates s.currentCrashType { st with ChaosEnabled := true, ChaosCount := st.ChaosCount + 1 } }
    exact ⟨h.1, h.2.2.1, h.2.2.2, h.2.1⟩
  · rw [healthyResponse_state]
    exact ⟨rfl, rfl, rfl, rfl⟩

theorem quiet_setEntry_active (s : State) (v : CrashState) (hq : Quiet s) :
    Quiet { s with chaosStates := setEntry s.chaosStates s.currentCrashType v } := by
  intro k st hk hl
  have hk' : k ≠ s.currentCrashType := hk
  have hl' : setEntry s.chaosStates s.currentCrashType v k = some st := hl
  unfold setEntry at hl'
  rw [if_neg hk'] at hl'
  exact hq k st hk' hl'

theorem onlyCategories_setEntry (m : String → Option CrashState) (c : String) (v : CrashState)
    (hm : ∀ k st, m k = some st → IsCategory k) (hc : IsCategory c) :
    ∀ k st, setEntry m c v k = some st → IsCategory k := by
  intro k st hl
  unfold setEntry at hl
  split_ifs at hl with hk
  · rw [hk]; exact hc
  · exact hm k st hl

theorem buildupStage_sound (clk : Clock) (rnd : Rand) (s : State) (hs : Sound s)
    (hc : s.currentCrashType ≠ "") : Sound (buildupStage clk rnd s).state := by
  obtain ⟨hwf, honly, hstart, hq⟩ := hs
  have hcat : IsCategory s.currentCrashType := by
    rcases hwf.2 with h | h
    · exact absurd h hc
    · exact h
  obtain ⟨st, hst⟩ := lookup_of_hasAllKeys hwf.1 hcat
  obtain ⟨h1, h2, h3, h4⟩ := buildupStage_frame clk rnd s st hst
  refine ⟨buildupStage_wellFormed clk rnd s hwf, ?_, ?_, ?_⟩
  · rw [h4]
    split_ifs
    · exact onlyCategories_setEntry _ _ _ honly hcat
    · exact honly
  · intro _
    rw [h3]
    exact hstart hc
  · intro k st' hk hl
    rw [h2] at hk
    rw [h4] at hl
    split_ifs at hl
    · unfold setEntry at hl
      rw [if_neg hk] at hl
      exact hq k st' hk hl
    · exact hq k st' hk hl

theorem quiet_entry_of_idle (s : State) (hs : Sound s) (hc : s.currentCrashType = "")
    (k : String) (st : CrashState) (hl : s.chaosStates k = some st) :
    st.ChaosCount = 0 ∧ st.ChaosEnabled = false := by
  have hk : k ≠ s.currentCrashType := by
    rw [hc]
    exact isCategory_ne_empty (hs.2.1 k st hl)
  exact hs.2.2.2 k st hk hl

/-- On sound variables with no active category, a call of `selectCrashType`
that gets past the test of the sum finds the `ChaosCount == 0` guard true and
stamps the selected entry. -/
theorem selectCrashType_of_sound (now : Int) (u : ℚ) (s : State) (hs : Sound s)
    (hc : s.currentCrashType = "") (hS : 0 < totalChance s.config) :
    ∃ st, s.chaosStates (pickCrashType s.config (u * totalChance s.config)) = some st ∧
      st.ChaosCount = 0 ∧ st.ChaosEnabled = false ∧
      selectCrashType now u s =
        Exec.done { s with currentCrashType := pickCrashType s.config (u * totalChance s.config),
                           chaosStates := setEntry s.chaosStates
                             (pickCrashType s.config (u * totalChance s.config))
                             { st with BuildupStartTime := now } } := by
  obtain ⟨st, hst⟩ := lookup_of_hasAllKeys hs.1.1
    (pickCrashType_isCategory s.config (u * totalChance s.config))
  have hz := quiet_entry_of_idle s hs hc _ st hst
  exact ⟨st, hst, hz.1, hz.2, selectCrashType_eq now u s st hS hst hz.1⟩

theorem selectionStage_sound (clk : Clock) (rnd : Rand) (s : State) (hs : Sound s)
    (hstart : s.chaosStarted = true) :
    ∃ s2, selectionStage clk rnd s = Exec.done s2 ∧ Sound s2 := by
  rcases selectionStage_cases clk rnd s with h | h | ⟨hc, hS, _, h⟩
  · exact ⟨s, h, hs⟩
  · exfalso
    obtain ⟨s2, h2, _⟩ := selectionStage_wellFormed clk rnd s hs.1
    rw [h] at h2
    cases h2
  · obtain ⟨st, hst, hcount, hen, heq⟩ := selectCrashType_of_sound clk.sel rnd.uSelect s hs hc hS
    refine ⟨_, h.trans heq, ?_, ?_, ?_, ?_⟩
    · exact ⟨hasAllKeys_setEntry _ _ hs.1.1, Or.inr (pickCrashType_isCategory _ _)⟩
    · exact onlyCategories_setEntry _ _ _ hs.2.1 (pickCrashType_isCategory _ _)
    · intro _
      exact hstart
    · intro k st' hk hl
      have hk' : k ≠ pickCrashType s.config (rnd.uSelect * totalChance s.config) := hk
      have hl' : setEntry s.chaosStates (pickCrashType s.config (rnd.uSelect * totalChance s.config))
          { st with BuildupStartTime := clk.sel } k = some st' := hl
      unfold setEntry at hl'
      rw [if_neg hk'] at hl'
      exact quiet_entry_of_idle s hs hc k st' hl'

theorem chaosHandler_sound (clk : Clock) (rnd : Rand) (s : State) (hs : Sound s) :
    Sound (chaosHandler clk rnd s).state := by
  by_cases hd : tickDue clk s = true
  · by_cases hst : s.chaosStarted = true
    · have hs1 : Sound { s with lastChaosCheck := clk.check } := hs
      obtain ⟨s2, hsel, hs2⟩ := selectionStage_sound clk rnd _ hs1 hst
      rw [chaosHandler_of_started clk rnd s hd hst, hsel]
      simp only
      split_ifs with hc
      · exact buildupStage_sound clk rnd s2 hs2 hc
      · rw [healthyResponse_state]; exact hs2
    · have hc : s.currentCrashType = "" := by
        by_contra hne
        exact hst (hs.2.2.1 hne)
      rw [chaosHandler_of_not_started clk rnd s hd (eq_false_of_not_true hst)]
      split_ifs
      · exact hs
      · refine ⟨⟨hasAllKeys_stampAll _ hs.1.1, hs.1.2⟩, ?_, fun _ => rfl, ?_⟩
        · intro k st hl
          have hl' : stampAll clk.warm s.chaosStates k = some st := hl
          unfold stampAll at hl'
          cases hk : s.chaosStates k with
          | none => rw [hk] at hl'; cases hl'
          | some st0 => exact hs.2.1 k st0 hk
        · intro k st hk hl
          have hl' : stampAll clk.warm s.chaosStates k = some st := hl
          unfold stampAll at hl'
          cases hk0 : s.chaosStates k with
          | none => rw [hk0] at hl'; cases hl'
          | some st0 =>
            rw [hk0] at hl'
            simp only [Option.map_some', Option.some.injEq] at hl'
            have hz := hs.2.2.2 k st0 hk hk0
            rw [← hl']
            exact hz
  · rw [chaosHandler_of_not_due clk rnd s (eq_false_of_not_true hd), healthyResponse_state]
    exact hs

theorem crashRecovery_sound (s : State) (hs : Sound s) : Sound (crashRecovery s) := by
  obtain ⟨hwf, honly, hstart, hq⟩ := hs
  by_cases hc : s.currentCrashType = ""
  · rw [crashRecovery_of_idle s hc]
    refine ⟨hwf, honly, ?_, hq⟩
    intro hne
    exact absurd hc hne
  · have hcat : IsCategory s.currentCrashType := by
      rcases hwf.2 with h | h
      · exact absurd h hc
      · exact h
    unfold crashRecovery
    rw [if_pos hc]
    refine ⟨⟨hasAllKeys_setEntry _ _ hwf.1, Or.inl rfl⟩,
      onlyCategories_setEntry _ _ _ honly hcat, ?_, ?_⟩
    · intro hne
      exact absurd rfl hne
    · intro k st _ hl
      have hl' : setEntry s.chaosStates s.currentCrashType ⟨0, false, 0⟩ k = some st := hl
      unfold setEntry at hl'
      split_ifs at hl' with hk
      · simp only [Option.some.injEq] at hl'
        rw [← hl']
        exact ⟨rfl, rfl⟩
      · exact hq k st hk hl'

theorem sound_init (cfg : ServerCrashConfig) : Sound (initState cfg) := by
  refine ⟨⟨hasAllKeys_init, Or.inl rfl⟩, ?_, ?_, ?_⟩
  · intro k st hl
    have hl' : initChaosStates k = some st := hl
    unfold initChaosStates at hl'
    unfold IsCategory
    split_ifs at hl' with h1 h2 h3 h4
    · exact Or.inl h1
    · exact Or.inr (Or.inl h2)
    · exact Or.inr (Or.inr (Or.inl h3))
    · exact Or.inr (Or.inr (Or.inr h4))
  · intro hne
    exact absurd rfl hne
  · intro k st _ hl
    have hl' : initChaosStates k = some st := hl
    unfold initChaosStates at hl'
    split_ifs at hl' <;>
      (simp only [Option.some.injEq] at hl'; rw [← hl']; exact ⟨rfl, rfl⟩)

theorem step_sound (s : State) (e : Event) (hs : Sound s) : Sound (step s e).1 := by
  cases e with
  | root clk rnd => exact chaosHandler_sound clk rnd s hs
  | health now =>
    simp only [step, healthCheck_state]
    exact hs
  | recover => exact crashRecovery_sound s hs

theorem run_sound_of (es : List Event) (s : State) (hs : Sound s) : Sound (run s es) := by
  induction es generalizing s with
  | nil => exact hs
  | cons e rest ih => exact ih _ (step_sound s e hs)

theorem run_sound (cfg : ServerCrashConfig) (es : List Event) :
    Sound (run (initState cfg) es) :=
  run_sound_of es _ (sound_init cfg)

/-! ## The selection tick and the triggered tick -/

theorem selectionStage_of_guard (clk : Clock) (rnd : Rand) (s : State) (st0 : CrashState)
    (hc : s.currentCrashType = "") (h0 : s.chaosStates "HighCPULoad" = some st0)
    (hstab : since clk.stab st0.BuildupStartTime > 10 * second) :
    selectionStage clk rnd s = selectCrashType clk.sel rnd.uSelect s := by
  unfold selectionStage
  rw [if_pos hc]
  simp only [h0]
  rw [if_pos hstab]

/-- The tick that selects: the handler goes on to the buildup of the category
picked, whose entry `selectCrashType` has stamped. -/
theorem chaosHandler_of_selection (clk : Clock) (rnd : Rand) (s : State) (st0 st : CrashState)
    (hd : tickDue clk s = true) (hs : s.chaosStarted = true) (hc : s.currentCrashType = "")
    (h0 : s.chaosStates "HighCPULoad" = some st0)
    (hstab : since clk.stab st0.BuildupStartTime > 10 * second)
    (hS : 0 < totalChance s.config)
    (hst : s.chaosStates (pickCrashType s.config (rnd.uSelect * totalChance s.config)) = some st)
    (hcount : st.ChaosCount = 0) :
    chaosHandler clk rnd s =
      buildupStage clk rnd
        { s with lastChaosCheck := clk.check,
                 currentCrashType := pickCrashType s.config (rnd.uSelect * totalChance s.config),
                 chaosStates := setEntry s.chaosStates
                   (pickCrashType s.config (rnd.uSelect * totalChance s.config))
                   { st with BuildupStartTime := clk.sel } } := by
  rw [chaosHandler_of_started clk rnd s hd hs]
  have hsel := selectionStage_of_guard clk rnd { s with lastChaosCheck := clk.check } st0 hc h0 hstab
  have heq := selectCrashType_eq clk.sel rnd.uSelect { s with lastChaosCheck := clk.check } st hS hst hcount
  rw [hsel, heq]
  simp only
  rw [if_pos (isCategory_ne_empty (pickCrashType_isCategory _ _))]

theorem triggered_of_not_enabled (st : CrashState) (u : ℚ) (x : FVal)
    (h : st.ChaosEnabled = false) : triggered st u x = true := by
  simp [triggered, h]

theorem setEntry_same (m : String → Option CrashState) (k : String) (v : CrashState) :
    setEntry m k v k = some v := by
  simp [setEntry]

theorem setEntry_other (m : String → Option CrashState) (k j : String) (v : CrashState)
    (h : j ≠ k) : setEntry m k v j = m j := by
  simp [setEntry, h]

/-- The injection that the `switch` of lines 167-188 runs for a category. -/
theorem injectStage_of_valid (clk : Clock) (rnd : Rand) (e n : Int) (s : State)
    (hc : IsCategory s.currentCrashType)
    (hv : InjectorArgsValid rnd s.config s.currentCrashType e) :
    (injectStage clk rnd e n s).outcome = Outcome.wrote 500 (Body.failed s.currentCrashType n) ∧
    (injectStage clk rnd e n s).injected = some (injectionOf rnd s.config s.currentCrashType e) ∧
    (injectStage clk rnd e n s).state.chaosStates = s.chaosStates ∧
    (injectStage clk rnd e n s).state.currentCrashType = s.currentCrashType := by
  have e1 : ¬ ("MemoryLeak" = "HighCPULoad") := by decide
  have e2 : ¬ ("NetworkDelay" = "HighCPULoad") := by decide
  have e3 : ¬ ("ResourceExhaustion" = "HighCPULoad") := by decide
  have e5 : ¬ ("NetworkDelay" = "MemoryLeak") := by decide
  have e6 : ¬ ("ResourceExhaustion" = "MemoryLeak") := by decide
  have e9 : ¬ ("ResourceExhaustion" = "NetworkDelay") := by decide
  obtain ⟨hnet, hmem⟩ := hv
  unfold injectStage injectionOf
  rcases hc with h | h | h | h
  · simp only [h, if_true]
    refine ⟨?_, ?_, ?_, ?_⟩ <;> trivial
  · have hk := hmem h
    simp only [h, e1, if_false, if_true]
    unfold simulateMemoryLeak
    simp only
    rw [if_neg (not_lt.2 hk)]
    refine ⟨?_, ?_, ?_, ?_⟩ <;> trivial
  · have hk := hnet h
    simp only [h, e2, e5, if_false, if_true]
    unfold simulateNetworkDelay randIntn
    rw [if_neg (not_le.2 hk)]
    refine ⟨?_, ?_, ?_, ?_⟩ <;> trivial
  · simp only [h, e3, e6, e9, if_false, if_true]
    refine ⟨?_, ?_, ?_, ?_⟩ <;> trivial

/-- On sound variables a selection stage that ends with an active category
has run `selectCrashType` past its guard: the entry of the category picked
had never triggered and now carries the stamp of line 224. -/
theorem selection_of_sound (clk : Clock) (rnd : Rand) (s s2 : State) (hsound : Sound s)
    (hc : s.currentCrashType = "") (hsel : selectionStage clk rnd s = Exec.done s2)
    (hact : s2.currentCrashType ≠ "") :
    0 < totalChance s.config ∧
    (∃ st0, s.chaosStates "HighCPULoad" = some st0 ∧
      since clk.stab st0.BuildupStartTime > 10 * second) ∧
    ∃ st, s.chaosStates (pickCrashType s.config (rnd.uSelect * totalChance s.config)) = some st ∧
      st.ChaosCount = 0 ∧ st.ChaosEnabled = false ∧
      s2 = { s with currentCrashType := pickCrashType s.config (rnd.uSelect * totalChance s.config),
                    chaosStates := setEntry s.chaosStates
                      (pickCrashType s.config (rnd.uSelect * totalChance s.config))
                      { st with BuildupStartTime := clk.sel } } := by
  rcases selectionStage_cases clk rnd s with h | h | ⟨_, hS, hg, h⟩
  · rw [h] at hsel
    cases hsel
    exact absurd hc hact
  · rw [h] at hsel
    cases hsel
  · obtain ⟨st, hst, hcount, hen, heq⟩ := selectCrashType_of_sound clk.sel rnd.uSelect s hsound hc hS
    rw [h, heq] at hsel
    cases hsel
    exact ⟨hS, hg, st, hst, hcount, hen, rfl⟩

theorem buildupStage_entry (clk : Clock) (rnd : Rand) (s : State) (st : CrashState)
    (hst : s.chaosStates s.currentCrashType = some st) :
    (buildupStage clk rnd s).state.chaosStates s.currentCrashType =
      (if triggered st rnd.uTrigger (effectiveChance s.config s.currentCrashType
          (progressOf s.config (since clk.elapsed st.BuildupStartTime))) = true then
        some { st with ChaosEnabled := true, ChaosCount := st.ChaosCount + 1 }
      else some st) := by
  rw [(buildupStage_frame clk rnd s st hst).2.2.2]
  split_ifs
  · exact setEntry_same _ _ _
  · exact hst

theorem selectCrashType_config (now : Int) (u : ℚ) (s : State) :
    (selectCrashType now u s).state.config = s.config := by
  unfold selectCrashType
  split_ifs
  · rfl
  · simp only
    cases h : s.chaosStates (pickCrashType s.config (u * totalChance s.config)) with
    | none => simp [Exec.state]
    | some st => simp only []; split_ifs <;> simp [Exec.state]

theorem selectionStage_config (clk : Clock) (rnd : Rand) (s : State) :
    (selectionStage clk rnd s).state.config = s.config := by
  unfold selectionStage
  split_ifs
  · cases h : s.chaosStates "HighCPULoad" with
    | none => simp [Exec.state]
    | some st =>
      simp only []
      split_ifs
      · exact selectCrashType_config _ _ _
      · rfl
  · rfl

theorem buildupStage_config (clk : Clock) (rnd : Rand) (s : State) :
    (buildupStage clk rnd s).state.config = s.config := by
  cases h : s.chaosStates s.currentCrashType with
  | none =>
    unfold buildupStage
    simp only [h]
  | some st => exact (buildupStage_frame clk rnd s st h).1

theorem chaosHandler_config (clk : Clock) (rnd : Rand) (s : State) :
    (chaosHandler clk rnd s).state.config = s.config := by
  unfold chaosHandler
  by_cases hd : tickDue clk s = true
  · simp only [hd, if_true]
    split_ifs
    · rfl
    · rfl
    · have h := selectionStage_config clk rnd { s with lastChaosCheck := clk.check }
      cases hs : selectionStage clk rnd { s with lastChaosCheck := clk.check } with
      | panic s2 => rw [hs] at h; simpa [Exec.state] using h
      | done s2 =>
        rw [hs] at h
        simp only [Exec.state] at h
        simp only
        split_ifs
        · rw [buildupStage_config]; exact h
        · rw [healthyResponse_state]; exact h
  · rw [if_neg hd, healthyResponse_state]

theorem crashRecovery_config (s : State) : (crashRecovery s).config = s.config := by
  unfold crashRecovery
  split_ifs <;> rfl

theorem step_config (s : State) (e : Event) : (step s e).1.config = s.config := by
  cases e with
  | root clk rnd => exact chaosHandler_config clk rnd s
  | health now => simp only [step]; rw [healthCheck_state]
  | recover => exact crashRecovery_config s

theorem run_config (es : List Event) (s : State) : (run s es).config = s.config := by
  induction es generalizing s with
  | nil => rfl
  | cons e es ih => simp only [run]; rw [ih, step_config]
/-! ## C1: the forced crash -/

theorem stillInitializing_eq_false (clk : Clock) (s : State)
    (h0 : 0 ≤ s.config.InitialDelay) (hmax : s.config.InitialDelay ≤ maxDuration)
    (hmono : clk.delayBase ≤ clk.delayNow) : stillInitializing clk s = false := by
  unfold stillInitializing
  have hneg : durNeg s.config.InitialDelay = -s.config.InitialDelay := by
    unfold durNeg
    apply wrapInt64_of_inRange
    · unfold minDuration; unfold maxDuration at hmax; omega
    · unfold maxDuration; omega
  have hlt : ¬ since clk.delayNow (timeAdd clk.delayBase (durNeg s.config.InitialDelay)) < 0 := by
    rw [hneg]
    unfold since timeSub timeAdd maxDuration minDuration
    split_ifs <;> omega
  simp [hlt]

/-- C2 does not hold of the code: for every non-negative `InitialDelay` and
every due tick with `chaosStarted` false, the test of line 104 compares
`time.Since(time.Now().Add(-InitialDelay))`, which is at least `InitialDelay`,
with 0 and so never holds, however little time has passed since process
start. The handler therefore ends warm-up at once: it sets `chaosStarted`,
stamps every `BuildupStartTime` and returns without writing. -/
theorem warmup_gate_never_holds (clk : Clock) (rnd : Rand) (s : State)
    (h0 : 0 ≤ s.config.InitialDelay) (hmax : s.config.InitialDelay ≤ maxDuration)
    (hmono : clk.delayBase ≤ clk.delayNow)
    (hd : tickDue clk s = true) (hs : s.chaosStarted = false) :
    stillInitializing clk s = false ∧
    (chaosHandler clk rnd s).outcome = Outcome.silent ∧
    (chaosHandler clk rnd s).state.chaosStarted = true ∧
    ∀ k st, s.chaosStates k = some st →
      (chaosHandler clk rnd s).state.chaosStates k =
        some { st with BuildupStartTime := clk.warm k } := by
  have hi := stillInitializing_eq_false clk s h0 hmax hmono
  rw [chaosHandler_of_not_started clk rnd s hd hs, hi]
  refine ⟨rfl, rfl, rfl, ?_⟩
  intro k st hk
  simp [stampAll, hk]

/-- The scenario of C2: `InitialDelay` is five seconds and the first request
arrives at process start, no time having passed; the handler does not answer
"Server is initializing..." but ends warm-up. -/
theorem warmup_gate_never_holds_at_start :
    (initState (defaultConfig 5)).config.InitialDelay = 5 * second ∧
    (chaosHandler (clockAt sampleNow) (drawsWith 0) (initState (defaultConfig 5))).outcome
      = Outcome.silent ∧
    (chaosHandler (clockAt sampleNow) (drawsWith 0) (initState (defaultConfig 5))).state.chaosStarted
      = true ∧
    (chaosHandler (clockAt sampleNow) (drawsWith 0) (initState (defaultConfig 5))).state.chaosStates
      "HighCPULoad" = some ⟨sampleNow, false, 0⟩ :=
  have h := warmup_gate_never_holds (clockAt sampleNow) (drawsWith 0) (initState (defaultConfig 5))
    (by decide) (by decide) (by decide) (by decide) rfl
  ⟨rfl, h.2.1, h.2.2.1, h.2.2.2 "HighCPULoad" ⟨0, false, 0⟩ rfl⟩

/-! ## C3: the weighted choice of selectCrashType -/

theorem selectCrashType_currentCrashType (now : Int) (u : ℚ) (s : State)
    (hS : 0 < totalChance s.config) :
    (selectCrashType now u s).state.currentCrashType =
      pickCrashType s.config (u * totalChance s.config) := by
  unfold selectCrashType
  rw [if_neg (not_le.2 hS)]
  simp only
  cases h : s.chaosStates (pickCrashType s.config (u * totalChance s.config)) with
  | none => rfl
  | some st =>
    simp only
    split_ifs <;> rfl

theorem simulateNetworkDelay_eq_none (rnd : Rand) (cfg : ServerCrashConfig) (elapsed : Int)
    (he : 0 ≤ elapsed) (hB : 0 < cfg.BuildupDuration) (h : 500 * elapsed < cfg.BuildupDuration) :
    maxDelay rnd.badConv cfg elapsed = 0 ∧ simulateNetworkDelay rnd cfg elapsed = none := by
  have hB' : (0 : ℚ) < (cfg.BuildupDuration : ℚ) := by exact_mod_cast hB
  have he' : (0 : ℚ) ≤ (elapsed : ℚ) := by exact_mod_cast he
  have h' : (500 : ℚ) * (elapsed : ℚ) < (cfg.BuildupDuration : ℚ) := by exact_mod_cast h
  have hs : seconds cfg.BuildupDuration ≠ 0 := by
    unfold seconds
    positivity
  have hq : seconds elapsed / seconds cfg.BuildupDuration =
      (elapsed : ℚ) / (cfg.BuildupDuration : ℚ) := by
    unfold seconds
    field_simp
  have hq0 : (0 : ℚ) ≤ 500 * ((elapsed : ℚ) / (cfg.BuildupDuration : ℚ)) := by positivity
  have hq1 : 500 * ((elapsed : ℚ) / (cfg.BuildupDuration : ℚ)) < 1 := by
    rw [← mul_div_assoc, div_lt_one hB']
    exact h'
  have hm : maxDelay rnd.badConv cfg elapsed = 0 := by
    unfold maxDelay scaledBy fdiv
    simp only [hs, if_false, hq, fscale, fToInt, truncQ]
    push_cast
    rw [if_pos hq0]
    have hf : ⌊(500 : ℚ) * ((elapsed : ℚ) / (cfg.BuildupDuration : ℚ))⌋ = 0 := by
      rw [Int.floor_eq_iff]
      constructor
      · simpa using hq0
      · simpa using hq1
    rw [hf]
    simp
  refine ⟨hm, ?_⟩
  unfold simulateNetworkDelay randIntn
  rw [hm]
  simp

theorem simulateNetworkDelay_bound (rnd : Rand) (cfg : ServerCrashConfig) (elapsed : Int)
    (d : Nat) (h : simulateNetworkDelay rnd cfg elapsed = some d) :
    (d : Int) < maxDelay rnd.badConv cfg elapsed ∧ maxDelay rnd.badConv cfg elapsed ≤ 500 := by
  have hcap : maxDelay rnd.badConv cfg elapsed ≤ 500 := by
    unfold maxDelay scaledBy
    simp only
    split_ifs with hn
    · exact le_refl _
    · exact not_lt.1 hn
  refine ⟨?_, hcap⟩
  unfold simulateNetworkDelay randIntn at h
  split_ifs at h with hm
  simp only [Option.some.injEq] at h
  have hpos : 0 < maxDelay rnd.badConv cfg elapsed := not_le.1 hm
  have hlt : rnd.kDelay % (maxDelay rnd.badConv cfg elapsed).toNat <
      (maxDelay rnd.badConv cfg elapsed).toNat := Nat.mod_lt _ (by omega)
  omega

/-- C5 does not hold of the code: on the tick that selects the network
delay, `selectCrashType` stamps the entry with the current time, the entry
has never triggered, so the injector runs at once with an elapsed time that
is the time between two clock readings of the same request; `maxDelay` is
then 0 and `rand.Intn(maxDelay)` panics: no sleep, no response. -/
theorem network_delay_selection_tick_panics (clk : Clock) (rnd : Rand) (s : State)
    (st0 st : CrashState)
    (hd : tickDue clk s = true) (hs : s.chaosStarted = true) (hc : s.currentCrashType = "")
    (h0 : s.chaosStates "HighCPULoad" = some st0)
    (hstab : since clk.stab st0.BuildupStartTime > 10 * second)
    (hS : 0 < totalChance s.config)
    (hpick : pickCrashType s.config (rnd.uSelect * totalChance s.config) = "NetworkDelay")
    (hst : s.chaosStates "NetworkDelay" = some st) (hcount : st.ChaosCount = 0)
    (hen : st.ChaosEnabled = false)
    (hB : 0 < s.config.BuildupDuration) (hW : 0 ≤ s.config.CrashWindow)
    (hBW : s.config.BuildupDuration + s.config.CrashWindow ≤ maxDuration)
    (hclk : clk.sel ≤ clk.elapsed)
    (hfast : 500 * (clk.elapsed - clk.sel) < s.config.BuildupDuration) :
    (chaosHandler clk rnd s).outcome = Outcome.panicked none ∧
    (chaosHandler clk rnd s).state.currentCrashType = "NetworkDelay" ∧
    maxDelay rnd.badConv s.config (since clk.elapsed clk.sel) = 0 := by
  have hsel : selectionStage clk rnd { s with lastChaosCheck := clk.check } =
      Exec.done { s with lastChaosCheck := clk.check, currentCrashType := "NetworkDelay",
                         chaosStates := setEntry s.chaosStates "NetworkDelay"
                           { st with BuildupStartTime := clk.sel } } := by
    unfold selectionStage
    rw [if_pos hc]
    simp only [h0]
    rw [if_pos hstab]
    unfold selectCrashType
    simp only
    rw [if_neg (not_le.2 hS), hpick]
    simp only [hst, hcount, if_true]
  have hel0 : 0 ≤ since clk.elapsed clk.sel := by
    unfold since timeSub maxDuration minDuration
    split_ifs <;> omega
  have hel1 : since clk.elapsed clk.sel ≤ clk.elapsed - clk.sel := by
    unfold since timeSub maxDuration minDuration
    split_ifs <;> omega
  have hfast2 : 500 * since clk.elapsed clk.sel < s.config.BuildupDuration := by omega
  have hthr : durAdd s.config.BuildupDuration s.config.CrashWindow =
      s.config.BuildupDuration + s.config.CrashWindow := by
    unfold durAdd
    apply wrapInt64_of_inRange _ _ hBW
    unfold minDuration
    omega
  have hpanic := simulateNetworkDelay_eq_none rnd s.config _ hel0 hB hfast2
  have hnc : crashDue s.config (since clk.elapsed clk.sel) = false := by
    unfold crashDue
    rw [hthr]
    simp only [decide_eq_false_iff_not, not_lt, ge_iff_le, gt_iff_lt]
    omega
  rw [chaosHandler_of_started clk rnd s hd hs, hsel]
  have e1 : ¬ ("NetworkDelay" = "") := by decide
  have e2 : ¬ ("NetworkDelay" = "HighCPULoad") := by decide
  have e3 : ¬ ("NetworkDelay" = "MemoryLeak") := by decide
  simp only [ne_eq, e1, not_false_eq_true, if_true]
  unfold buildupStage
  simp only [setEntry, if_true]
  have htr : ∀ (t : CrashState) (x : FVal), t.ChaosEnabled = false →
      triggered t rnd.uTrigger x = true := by
    intro t x ht
    simp [triggered, ht]
  simp only [htr _ _ (show (CrashState.mk clk.sel st.ChaosEnabled st.ChaosCount).ChaosEnabled = false
    from hen), if_true, hnc, Bool.false_eq_true, if_false]
  unfold injectStage
  simp only [e2, e3, if_false, if_true, hpanic.2]
  exact ⟨trivial, trivial, hpanic.1⟩

/-- The tick of C5 at the configuration of the source: eleven seconds after
warm-up a request draws `u = 1/2`, which selects the network delay, and the
handler panics. -/
theorem network_delay_selection_tick_panics_default :
    (chaosHandler (tickingClock (sampleNow + 11 * second)) (drawsWith (1 / 2)) warmedState).outcome
      = Outcome.panicked none ∧
    (chaosHandler (tickingClock (sampleNow + 11 * second)) (drawsWith (1 / 2))
      warmedState).state.currentCrashType = "NetworkDelay" ∧
    maxDelay (drawsWith (1 / 2)).badConv warmedState.config
      (since (tickingClock (sampleNow + 11 * second)).elapsed
        (tickingClock (sampleNow + 11 * second)).sel) = 0 :=
  network_delay_selection_tick_panics (tickingClock (sampleNow + 11 * second))
    (drawsWith (1 / 2)) warmedState ⟨sampleNow, false, 0⟩ ⟨sampleNow, false, 0⟩
    (by decide) rfl rfl (by decide) (by decide)
    (by rw [warmedState_config]; norm_num [totalChance, defaultConfig])
    (by rw [warmedState_config]; norm_num [pickCrashType, totalChance, defaultConfig, drawsWith])
    (by decide) rfl rfl (by decide) (by decide) (by decide) (by decide) (by decide)

/-! ## C6: the recovery step resets the active category only -/

/-- C6: run with an active category `c`, the recovery step of `startServer`
sets `chaosStates[c]` to the zero `CrashState`, empties `currentCrashType`,
clears `chaosStarted` and leaves every other entry of `chaosStates` (and the
other package-level variables) as it was; run with no active category it
changes `chaosStarted` only. -/
theorem crashRecovery_resets_active_only (s : State) :
    (s.currentCrashType ≠ "" →
      (crashRecovery s).chaosStates s.currentCrashType = some ⟨0, false, 0⟩ ∧
      (crashRecovery s).currentCrashType = "" ∧
      (crashRecovery s).chaosStarted = false ∧
      (∀ k, k ≠ s.currentCrashType → (crashRecovery s).chaosStates k = s.chaosStates k) ∧
      (crashRecovery s).config = s.config ∧
      (crashRecovery s).memoryHog = s.memoryHog ∧
      (crashRecovery s).lastChaosCheck = s.lastChaosCheck) ∧
    (s.currentCrashType = "" → crashRecovery s = { s with chaosStarted := false }) := by
  constructor
  · intro h
    unfold crashRecovery
    rw [if_pos h]
    refine ⟨?_, rfl, rfl, ?_, rfl, rfl, rfl⟩
    · simp [setEntry]
    · intro k hk
      simp [setEntry, hk]
  · intro h
    unfold crashRecovery
    simp [h]

/-! ## C7: the recovery step and memoryHog -/

/-- C7, as the code has it: the recovery step of `startServer` does not touch
`memoryHog`; its length after the step is its length before. -/
theorem crashRecovery_keeps_memoryHog (s : State) :
    (crashRecovery s).memoryHog = s.memoryHog ∧
    (crashRecovery s).memoryHog.length = s.memoryHog.length := by
  have h := crashRecovery_memoryHog s
  exact ⟨h, by rw [h]⟩

theorem injectStage_memoryLeak (clk : Clock) (rnd : Rand) (e n : Int) (s : State)
    (hc : s.currentCrashType = "MemoryLeak")
    (hk : 0 ≤ scaledBy 1048576 rnd.badConv s.config e) :
    (injectStage clk rnd e n s).state.memoryHog.length =
      s.memoryHog.length + (scaledBy 1048576 rnd.badConv s.config e).toNat ∧
    (injectStage clk rnd e n s).outcome = Outcome.wrote 500 (Body.failed "MemoryLeak" n) := by
  have e1 : ¬ ("MemoryLeak" = "HighCPULoad") := by decide
  unfold injectStage simulateMemoryLeak
  simp only [hc, e1, if_false, if_true]
  rw [if_neg (not_lt.2 hk)]
  simp only [List.length_append, List.length_map, List.length_range]
  exact ⟨trivial, trivial⟩

theorem memoryLeak_tick (clk : Clock) (rnd : Rand) (s : State) (st : CrashState)
    (hd : tickDue clk s = true) (hs : s.chaosStarted = true)
    (hc : s.currentCrashType = "MemoryLeak")
    (hst : s.chaosStates "MemoryLeak" = some st)
    (ht : triggered st rnd.uTrigger (effectiveChance s.config "MemoryLeak"
      (progressOf s.config (since clk.elapsed st.BuildupStartTime))) = true)
    (hcd : crashDue s.config (since clk.elapsed st.BuildupStartTime) = false)
    (hk : 0 ≤ scaledBy 1048576 rnd.badConv s.config (since clk.elapsed st.BuildupStartTime)) :
    (chaosHandler clk rnd s).state.memoryHog.length =
      s.memoryHog.length +
        (scaledBy 1048576 rnd.badConv s.config (since clk.elapsed st.BuildupStartTime)).toNat ∧
    (chaosHandler clk rnd s).outcome =
      Outcome.wrote 500 (Body.failed "MemoryLeak" (st.ChaosCount + 1)) := by
  have hne : s.currentCrashType ≠ "" := by
    rw [hc]
    decide
  rw [chaosHandler_of_active clk rnd s hd hs hne]
  have hb := buildupStage_of_triggered clk rnd { s with lastChaosCheck := clk.check } st
    (by rw [hc]; exact hst) (by rw [hc]; exact ht) hcd
  rw [hb]
  exact injectStage_memoryLeak clk rnd _ _ _ hc hk

theorem leak_tick_appends_chunk :
    (chaosHandler (clockAt (sampleNow + 11 * second + 35 * minute)) (drawsWith 0)
      leakingState).state.memoryHog.length = 1048576 ∧
    (chaosHandler (clockAt (sampleNow + 11 * second + 35 * minute)) (drawsWith 0)
      leakingState).outcome = Outcome.wrote 500 (Body.failed "MemoryLeak" 2) := by
  have hel : since (clockAt (sampleNow + 11 * second + 35 * minute)).elapsed
      (sampleNow + 11 * second) = (defaultConfig 5).BuildupDuration := by decide
  have hk : scaledBy 1048576 (drawsWith 0).badConv (defaultConfig 5)
      (since (clockAt (sampleNow + 11 * second + 35 * minute)).elapsed
        (sampleNow + 11 * second)) = 1048576 := by
    rw [hel]
    exact scaledBy_full 1048576 0 (defaultConfig 5) (by decide) (by decide)
  have e1 : ¬ ("MemoryLeak" = "HighCPULoad") := by decide
  have h := memoryLeak_tick (clockAt (sampleNow + 11 * second + 35 * minute)) (drawsWith 0)
    leakingState ⟨sampleNow + 11 * second, true, 1⟩ (by decide) rfl rfl (by decide)
    (by
      rw [progressOf_eq _ _ (by decide), effectiveChance_fin _ _ _ (by decide)]
      norm_num [triggered, flt, fgt, baseChance, leakingState, defaultConfig, drawsWith, since,
        timeSub, clockAt, sampleNow, minute, second, maxDuration, minDuration, e1])
    (by decide)
    (by
      rw [show leakingState.config = defaultConfig 5 from rfl, hk]
      decide)
  rw [show leakingState.config = defaultConfig 5 from rfl, hk] at h
  exact ⟨h.1, h.2⟩

/-- C7 fails as stated: a due tick at full buildup of the memory leak writes
a 500 and appends a chunk of 1 MiB; after the recovery step that follows,
`memoryHog` is still 1048576 bytes long, not empty. -/
theorem memoryHog_survives_recovery :
    (chaosHandler (clockAt (sampleNow + 11 * second + 35 * minute)) (drawsWith 0)
      leakingState).outcome = Outcome.wrote 500 (Body.failed "MemoryLeak" 2) ∧
    (run leakingState
      [Event.root (clockAt (sampleNow + 11 * second + 35 * minute)) (drawsWith 0),
        Event.recover]).memoryHog.length = 1048576 ∧
    (run leakingState
      [Event.root (clockAt (sampleNow + 11 * second + 35 * minute)) (drawsWith 0),
        Event.recover]).memoryHog.length ≠ 0 := by
  have hl := leak_tick_appends_chunk
  have hr : (run leakingState
      [Event.root (clockAt (sampleNow + 11 * second + 35 * minute)) (drawsWith 0),
        Event.recover]).memoryHog.length = 1048576 := by
    simp only [run, step]
    rw [crashRecovery_memoryHog]
    exact hl.1
  refine ⟨hl.2, hr, ?_⟩
  rw [hr]
  decide

/-! ## C8: healthCheck is a pure observer -/

theorem run_health (s : State) (nows : List Int) :
    run s (nows.map Event.health) = s ∧
    outcomes s (nows.map Event.health) = nows.map fun now => some (healthCheck now s).outcome := by
  induction nows with
  | nil => exact ⟨rfl, rfl⟩
  | cons now rest ih =>
    simp only [List.map_cons, run, outcomes, step, healthCheck_state]
    exact ⟨ih.1, by rw [ih.2]⟩

/-- C8: `healthCheck` leaves every package-level variable as it was, for any
number of invocations, and sends status 200 each time; its body is the "No
chaos active" one when `currentCrashType` is empty and otherwise names the
active category, with the time since its `BuildupStartTime`. On well-formed
variables, which are all that a run reaches, the response is always whole. -/
theorem healthCheck_pure_observer (s : State) (nows : List Int) :
    run s (nows.map Event.health) = s ∧
    (outcomes s (nows.map Event.health) = nows.map fun now => some (healthCheck now s).outcome) ∧
    ∀ now, (healthCheck now s).state = s ∧
      (healthCheck now s).outcome.status = some 200 ∧
      (healthCheck now s).injected = none ∧
      (s.currentCrashType = "" →
        (healthCheck now s).outcome = Outcome.wrote 200 Body.healthNoChaos) ∧
      (∀ st, s.currentCrashType ≠ "" → s.chaosStates s.currentCrashType = some st →
        (healthCheck now s).outcome =
          Outcome.wrote 200 (Body.health s.currentCrashType (since now st.BuildupStartTime))) ∧
      (WellFormed s → ∃ body, (healthCheck now s).outcome = Outcome.wrote 200 body) := by
  refine ⟨(run_health s nows).1, (run_health s nows).2, ?_⟩
  intro now
  refine ⟨healthCheck_state now s, ?_, ?_, ?_, ?_, ?_⟩
  · unfold healthCheck
    split_ifs
    · cases h : s.chaosStates s.currentCrashType <;> rfl
    · rfl
  · unfold healthCheck
    split_ifs
    · cases h : s.chaosStates s.currentCrashType <;> rfl
    · rfl
  · intro h
    unfold healthCheck
    simp [h]
  · intro st hc hst
    unfold healthCheck
    simp [hc, hst]
  · intro hwf
    unfold healthCheck
    split_ifs with hc
    · rcases hwf.2 with h | h
      · exact absurd h hc
      · obtain ⟨st, hst⟩ := lookup_of_hasAllKeys hwf.1 h
        simp only [hst]
        exact ⟨_, rfl⟩
    · exact ⟨_, rfl⟩

/-! ## C9: all base chances zero -/

theorem selectCrashType_of_zero (now : Int) (u : ℚ) (s : State)
    (hz : AllChancesZero s.config) : selectCrashType now u s = Exec.done s := by
  obtain ⟨h1, h2, h3, h4⟩ := hz
  unfold selectCrashType totalChance
  simp [h1, h2, h3, h4]

theorem chaosHandler_idle (clk : Clock) (rnd : Rand) (s : State) (hs : IdleForever s) :
    IdleForever (chaosHandler clk rnd s).state ∧
    ((s.chaosStarted = true ∨ tickDue clk s = false) →
      (chaosHandler clk rnd s).outcome = Outcome.wrote 200 Body.runningNoChaos) ∧
    (s.chaosStarted = false → tickDue clk s = true →
      (chaosHandler clk rnd s).outcome = Outcome.silent ∨
      ∃ d, (chaosHandler clk rnd s).outcome = Outcome.wrote 200 (Body.initializing d)) := by
  obtain ⟨hz, hc, hk⟩ := hs
  have hhealthy : ∀ t : State, t.currentCrashType = "" →
      healthyResponse clk t = ⟨t, Outcome.wrote 200 Body.runningNoChaos, none⟩ := by
    intro t ht
    unfold healthyResponse
    simp [ht]
  by_cases hd : tickDue clk s = true
  · by_cases hst : s.chaosStarted = true
    · obtain ⟨st0, h0⟩ := lookup_of_hasAllKeys hk (Or.inl rfl)
      have hsel : selectionStage clk rnd { s with lastChaosCheck := clk.check } =
          Exec.done { s with lastChaosCheck := clk.check } := by
        unfold selectionStage
        rw [if_pos hc]
        simp only [h0]
        split_ifs
        · exact selectCrashType_of_zero _ _ _ hz
        · rfl
      rw [chaosHandler_of_started clk rnd s hd hst, hsel]
      simp only [hc, ne_eq, not_true_eq_false, if_false]
      rw [hhealthy _ rfl]
      refine ⟨⟨hz, rfl, hk⟩, fun _ => rfl, ?_⟩
      intro hf
      rw [hst] at hf
      cases hf
    · have hst2 := eq_false_of_not_true hst
      rw [chaosHandler_of_not_started clk rnd s hd hst2]
      split_ifs
      · refine ⟨⟨hz, hc, hk⟩, ?_, fun _ _ => Or.inr ⟨_, rfl⟩⟩
        rintro (h | h)
        · exact absurd h hst
        · rw [hd] at h; cases h
      · refine ⟨⟨hz, hc, hasAllKeys_stampAll _ hk⟩, ?_, fun _ _ => Or.inl rfl⟩
        rintro (h | h)
        · exact absurd h hst
        · rw [hd] at h; cases h
  · rw [chaosHandler_of_not_due clk rnd s (eq_false_of_not_true hd), hhealthy s hc]
    refine ⟨⟨hz, hc, hk⟩, fun _ => rfl, ?_⟩
    intro _ h
    exact absurd h hd

theorem step_idle (s : State) (e : Event) (hs : IdleForever s) : IdleForever (step s e).1 := by
  cases e with
  | root clk rnd => exact (chaosHandler_idle clk rnd s hs).1
  | health now =>
    simp only [step, healthCheck_state]
    exact hs
  | recover =>
    obtain ⟨hz, hc, hk⟩ := hs
    simp only [step]
    rw [crashRecovery_of_idle s hc]
    exact ⟨hz, hc, hk⟩

theorem run_idle (es : List Event) (s : State) (hs : IdleForever s) : IdleForever (run s es) := by
  induction es generalizing s with
  | nil => exact hs
  | cons e rest ih => exact ih _ (step_idle s e hs)

/-- C9, as the code has it: when the four base chances are 0, after every
sequence of requests and recovery steps from the initial state, with any
clock readings and draws, `currentCrashType` is empty and stays empty over
the next request to `/`; that request answers 200 "No chaos active" when
warm-up is over or the tick is not due, and on a due tick of the warm-up it
answers "Server is initializing..." or returns without writing anything. -/
theorem zero_chances_never_activate (cfg : ServerCrashConfig) (hz : AllChancesZero cfg)
    (es : List Event) (clk : Clock) (rnd : Rand) :
    (run (initState cfg) es).currentCrashType = "" ∧
    (chaosHandler clk rnd (run (initState cfg) es)).state.currentCrashType = "" ∧
    (((run (initState cfg) es).chaosStarted = true ∨ tickDue clk (run (initState cfg) es) = false) →
      (chaosHandler clk rnd (run (initState cfg) es)).outcome
        = Outcome.wrote 200 Body.runningNoChaos) ∧
    ((run (initState cfg) es).chaosStarted = false → tickDue clk (run (initState cfg) es) = true →
      (chaosHandler clk rnd (run (initState cfg) es)).outcome = Outcome.silent ∨
      ∃ d, (chaosHandler clk rnd (run (initState cfg) es)).outcome
        = Outcome.wrote 200 (Body.initializing d)) := by
  have h0 : IdleForever (initState cfg) := ⟨hz, rfl, hasAllKeys_init⟩
  have hr := run_idle es (initState cfg) h0
  have hh := chaosHandler_idle clk rnd _ hr
  exact ⟨hr.2.1, hh.1.2.1, hh.2.1, hh.2.2⟩

/-- C9 fails as stated on the first request: with the four base chances 0
the first request to `/` gets no "No chaos active" response, since the
handler returns without writing anything. -/
theorem zero_chances_first_request_silent :
    AllChancesZero zeroChanceConfig ∧
    (chaosHandler (clockAt sampleNow) (drawsWith 0) (initState zeroChanceConfig)).outcome
      = Outcome.silent ∧
    (chaosHandler (clockAt sampleNow) (drawsWith 0) (initState zeroChanceConfig)).outcome
      ≠ Outcome.wrote 200 Body.runningNoChaos := by
  refine ⟨⟨rfl, rfl, rfl, rfl⟩, by decide, by decide⟩

/-- C9 on a run: with the four base chances 0, after the warm-up request the
request made eleven seconds later answers 200 "No chaos active" and no
category is active. -/
theorem zero_chances_never_activate_after_warmup :
    (run (initState zeroChanceConfig) [Event.root (clockAt sampleNow) (drawsWith 0)]).currentCrashType
      = "" ∧
    (chaosHandler (clockAt (sampleNow + 11 * second)) (drawsWith (1 / 2))
      (run (initState zeroChanceConfig)
        [Event.root (clockAt sampleNow) (drawsWith 0)])).state.currentCrashType = "" ∧
    (chaosHandler (clockAt (sampleNow + 11 * second)) (drawsWith (1 / 2))
      (run (initState zeroChanceConfig) [Event.root (clockAt sampleNow) (drawsWith 0)])).outcome
      = Outcome.wrote 200 Body.runningNoChaos :=
  have h := zero_chances_never_activate zeroChanceConfig ⟨rfl, rfl, rfl, rfl⟩
    [Event.root (clockAt sampleNow) (drawsWith 0)] (clockAt (sampleNow + 11 * second))
    (drawsWith (1 / 2))
  ⟨h.1, h.2.1, h.2.2.1 (Or.inl (by decide))⟩

/-! ## C10: the clock gate -/

/-- C10, as the code has it: a chaos evaluation tick runs if and only if the
time since `lastChaosCheck` is strictly greater than `chaosInterval`;
`lastChaosCheck` is advanced to the reading of line 101 exactly when the tick
is due, and a request that is not due only reports the state. -/
theorem clock_gate_strict (clk : Clock) (rnd : Rand) (s : State) :
    (tickDue clk s = true ↔ clk.gate - s.lastChaosCheck > chaosInterval) ∧
    (chaosHandler clk rnd s).state.lastChaosCheck =
      (if clk.gate - s.lastChaosCheck > chaosInterval then clk.check else s.lastChaosCheck) ∧
    (¬ clk.gate - s.lastChaosCheck > chaosInterval →
      chaosHandler clk rnd s = healthyResponse clk s ∧ (chaosHandler clk rnd s).state = s) := by
  refine ⟨tickDue_iff clk s, ?_, ?_⟩
  · rw [chaosHandler_lastChaosCheck]
    by_cases h : clk.gate - s.lastChaosCheck > chaosInterval
    · rw [if_pos h, if_pos ((tickDue_iff clk s).2 h)]
    · rw [if_neg h, if_neg (fun hd => h ((tickDue_iff clk s).1 hd))]
  · intro h
    have hd : tickDue clk s = false := by
      cases hb : tickDue clk s
      · rfl
      · exact absurd ((tickDue_iff clk s).1 hb) h
    rw [chaosHandler_of_not_due clk rnd s hd]
    exact ⟨rfl, healthyResponse_state clk s⟩

/-- C10 fails as stated at the boundary: five seconds exactly after the last
evaluated tick (`t - t0 ≥ chaosInterval`) the tick is not due and
`lastChaosCheck` is not advanced. -/
theorem tick_not_due_at_five_seconds :
    (clockAt (sampleNow + 5 * second)).gate - warmedState.lastChaosCheck ≥ chaosInterval ∧
    tickDue (clockAt (sampleNow + 5 * second)) warmedState = false ∧
    (chaosHandler (clockAt (sampleNow + 5 * second)) (drawsWith 0) warmedState).state.lastChaosCheck
      = sampleNow ∧
    warmedState.lastChaosCheck = sampleNow := by
  decide

/-! ## C11: a request that is not due only observes -/

theorem healthyResponse_injected (clk : Clock) (s : State) :
    (healthyResponse clk s).injected = none := by
  unfold healthyResponse
  split_ifs
  · cases h : s.chaosStates s.currentCrashType <;> rfl
  · rfl

theorem healthyResponse_status (clk : Clock) (s : State) :
    (healthyResponse clk s).outcome.status = some 200 := by
  unfold healthyResponse
  split_ifs
  · cases h : s.chaosStates s.currentCrashType <;> rfl
  · rfl

/-- C11: when the time since `lastChaosCheck` does not exceed `chaosInterval`,
`chaosHandler` leaves every package-level variable as it was, runs no
injector and sends status 200; the body is the "No chaos active" one when
`currentCrashType` is empty and otherwise names the active category, with the
time since its `BuildupStartTime`. -/
theorem not_due_observes_only (clk : Clock) (rnd : Rand) (s : State)
    (h : clk.gate - s.lastChaosCheck ≤ chaosInterval) :
    (chaosHandler clk rnd s).state = s ∧
    (chaosHandler clk rnd s).injected = none ∧
    (chaosHandler clk rnd s).outcome.status = some 200 ∧
    (s.currentCrashType = "" →
      (chaosHandler clk rnd s).outcome = Outcome.wrote 200 Body.runningNoChaos) ∧
    (∀ st, s.currentCrashType ≠ "" → s.chaosStates s.currentCrashType = some st →
      (chaosHandler clk rnd s).outcome =
        Outcome.wrote 200
          (Body.running s.currentCrashType (since clk.uptime st.BuildupStartTime))) ∧
    (WellFormed s → ∃ body, (chaosHandler clk rnd s).outcome = Outcome.wrote 200 body) := by
  have hd : tickDue clk s = false := by
    apply eq_false_of_not_true
    intro hd
    have := (tickDue_iff clk s).1 hd
    omega
  rw [chaosHandler_of_not_due clk rnd s hd]
  refine ⟨healthyResponse_state clk s, healthyResponse_injected clk s,
    healthyResponse_status clk s, ?_, ?_, healthyResponse_wrote clk s⟩
  · intro hc
    unfold healthyResponse
    simp [hc]
  · intro st hc hst
    unfold healthyResponse
    simp [hc, hst]

/-- C11 three seconds after the warm-up tick: the request changes nothing and
answers 200 "No chaos active". -/
theorem not_due_observes_only_after_three_seconds :
    (chaosHandler (clockAt (sampleNow + 3 * second)) (drawsWith (1 / 2)) warmedState).state
      = warmedState ∧
    (chaosHandler (clockAt (sampleNow + 3 * second)) (drawsWith (1 / 2)) warmedState).outcome
      = Outcome.wrote 200 Body.runningNoChaos :=
  have h := not_due_observes_only (clockAt (sampleNow + 3 * second)) (drawsWith (1 / 2))
    warmedState (by decide)
  ⟨h.1, h.2.2.2.1 rfl⟩

/-! ## C12: when selection runs -/

theorem buildupStage_currentCrashType (clk : Clock) (rnd : Rand) (s : State) :
    (buildupStage clk rnd s).state.currentCrashType = s.currentCrashType := by
  cases hst : s.chaosStates s.currentCrashType with
  | none =>
    unfold buildupStage
    simp only [hst]
  | some st => exact (buildupStage_frame clk rnd s st hst).2.1

theorem buildupStage_chaosStarted (clk : Clock) (rnd : Rand) (s : State) :
    (buildupStage clk rnd s).state.chaosStarted = s.chaosStarted := by
  cases hst : s.chaosStates s.currentCrashType with
  | none =>
    unfold buildupStage
    simp only [hst]
  | some st => exact (buildupStage_frame clk rnd s st hst).2.2.1

theorem chaosHandler_currentCrashType_of_started (clk : Clock) (rnd : Rand) (s : State)
    (hd : tickDue clk s = true) (hs : s.chaosStarted = true) :
    (chaosHandler clk rnd s).state.currentCrashType =
      (selectionStage clk rnd { s with lastChaosCheck := clk.check }).state.currentCrashType := by
  rw [chaosHandler_of_started clk rnd s hd hs]
  cases hsel : selectionStage clk rnd { s with lastChaosCheck := clk.check } with
  | panic s2 => rfl
  | done s2 =>
    simp only [Exec.state]
    split_ifs
    · exact buildupStage_currentCrashType clk rnd s2
    · rw [healthyResponse_state]

theorem chaosHandler_currentCrashType_of_not_started (clk : Clock) (rnd : Rand) (s : State)
    (hd : tickDue clk s = true) (hs : s.chaosStarted = false) :
    (chaosHandler clk rnd s).state.currentCrashType = s.currentCrashType := by
  rw [chaosHandler_of_not_started clk rnd s hd hs]
  split_ifs <;> rfl

/-- C12: `chaosHandler` changes `currentCrashType` (and so `selectCrashType`
has run and chosen) only on a due tick on which `chaosStarted` was already
true, no category was active and strictly more than 10 seconds, hence at
least 10 seconds, had passed since the warm-up stamp that line 121 reads from
the CPU entry; the new value is then the category picked by the draw. In
particular `currentCrashType` is unchanged on every tick with `chaosStarted`
false, the warm-up transition tick included, and on every tick on which a
category is active. The stamp read by line 121 is set by the warm-up
transition tick and not moved by a later request that leaves no category
active. -/
theorem selection_only_when_idle_and_stable (clk : Clock) (rnd : Rand) (s : State) :
    ((chaosHandler clk rnd s).state.currentCrashType ≠ s.currentCrashType →
      tickDue clk s = true ∧ s.chaosStarted = true ∧ s.currentCrashType = "" ∧
      0 < totalChance s.config ∧
      (∃ st0, s.chaosStates "HighCPULoad" = some st0 ∧
        clk.stab - st0.BuildupStartTime > 10 * second ∧
        clk.stab - st0.BuildupStartTime ≥ 10 * second) ∧
      (chaosHandler clk rnd s).state.currentCrashType =
        pickCrashType s.config (rnd.uSelect * totalChance s.config) ∧
      IsCategory (chaosHandler clk rnd s).state.currentCrashType) ∧
    (s.chaosStarted = false →
      (chaosHandler clk rnd s).state.currentCrashType = s.currentCrashType) ∧
    (s.currentCrashType ≠ "" →
      (chaosHandler clk rnd s).state.currentCrashType = s.currentCrashType) ∧
    (tickDue clk s = true → s.chaosStarted = false → stillInitializing clk s = false →
      ∀ st0, s.chaosStates "HighCPULoad" = some st0 →
        (chaosHandler clk rnd s).state.chaosStates "HighCPULoad" =
          some { st0 with BuildupStartTime := clk.warm "HighCPULoad" }) ∧
    (s.chaosStarted = true → (chaosHandler clk rnd s).state.currentCrashType = "" →
      (chaosHandler clk rnd s).state.chaosStates = s.chaosStates) := by
  have key : (chaosHandler clk rnd s).state.currentCrashType ≠ s.currentCrashType →
      tickDue clk s = true ∧ s.chaosStarted = true ∧ s.currentCrashType = "" ∧
      0 < totalChance s.config ∧
      (∃ st0, s.chaosStates "HighCPULoad" = some st0 ∧
        clk.stab - st0.BuildupStartTime > 10 * second ∧
        clk.stab - st0.BuildupStartTime ≥ 10 * second) ∧
      (chaosHandler clk rnd s).state.currentCrashType =
        pickCrashType s.config (rnd.uSelect * totalChance s.config) ∧
      IsCategory (chaosHandler clk rnd s).state.currentCrashType := by
    intro hne
    by_cases hd : tickDue clk s = true
    · by_cases hs : s.chaosStarted = true
      · rw [chaosHandler_currentCrashType_of_started clk rnd s hd hs] at hne ⊢
        rcases selectionStage_cases clk rnd { s with lastChaosCheck := clk.check } with
          h | h | ⟨hc, hS, ⟨st0, h0, hg⟩, h⟩
        · rw [h] at hne
          exact absurd rfl hne
        · rw [h] at hne
          exact absurd rfl hne
        · have hg' : clk.stab - st0.BuildupStartTime > 10 * second := by
            apply (timeSub_gt_iff clk.stab st0.BuildupStartTime (10 * second) _ _).1 hg
            · unfold minDuration second; omega
            · unfold maxDuration second; omega
          have hcur := selectCrashType_currentCrashType clk.sel rnd.uSelect
            { s with lastChaosCheck := clk.check } hS
          rw [h, hcur]
          exact ⟨hd, hs, hc, hS, ⟨st0, h0, hg', le_of_lt hg'⟩, rfl,
            pickCrashType_isCategory _ _⟩
      · rw [chaosHandler_currentCrashType_of_not_started clk rnd s hd
          (eq_false_of_not_true hs)] at hne
        exact absurd rfl hne
    · rw [chaosHandler_of_not_due clk rnd s (eq_false_of_not_true hd),
        healthyResponse_state] at hne
      exact absurd rfl hne
  refine ⟨key, ?_, ?_, ?_, ?_⟩
  · intro hs
    by_contra hne
    have h := (key hne).2.1
    rw [hs] at h
    cases h
  · intro hc
    by_contra hne
    exact hc (key hne).2.2.1
  · intro hd hs hi st0 h0
    rw [chaosHandler_of_not_started clk rnd s hd hs, hi]
    simp [stampAll, h0]
  · intro hs hres
    by_cases hd : tickDue clk s = true
    · have hcur := chaosHandler_currentCrashType_of_started clk rnd s hd hs
      rw [hres] at hcur
      rw [chaosHandler_of_started clk rnd s hd hs]
      rcases selectionStage_cases clk rnd { s with lastChaosCheck := clk.check } with
        h | h | ⟨hc, hS, _, h⟩
      · rw [h] at hcur ⊢
        simp only [Exec.state] at hcur
        simp only
        rw [if_neg (by simpa using hcur.symm), healthyResponse_state]
      · rw [h]
      · exfalso
        have hpick := selectCrashType_currentCrashType clk.sel rnd.uSelect
          { s with lastChaosCheck := clk.check } hS
        rw [h, hpick] at hcur
        exact isCategory_ne_empty (pickCrashType_isCategory _ _) hcur.symm
    · rw [chaosHandler_of_not_due clk rnd s (eq_false_of_not_true hd), healthyResponse_state]

/-! ## C13: the triggered tick -/

/-- A triggered tick that is not a forced crash, when the arguments of the
injector are valid: the count of the active category goes up by one, its
injector runs, a 500 naming the category and the new count is written, the
other entries are untouched and the category stays active. -/
theorem triggered_tick_injects (clk : Clock) (rnd : Rand) (s s2 : State) (st : CrashState)
    (hd : tickDue clk s = true) (hs : s.chaosStarted = true)
    (hsel : selectionStage clk rnd { s with lastChaosCheck := clk.check } = Exec.done s2)
    (hcat : IsCategory s2.currentCrashType)
    (hst : s2.chaosStates s2.currentCrashType = some st)
    (ht : triggered st rnd.uTrigger (effectiveChance s2.config s2.currentCrashType
      (progressOf s2.config (since clk.elapsed st.BuildupStartTime))) = true)
    (hcd : crashDue s2.config (since clk.elapsed st.BuildupStartTime) = false)
    (hv : InjectorArgsValid rnd s2.config s2.currentCrashType
      (since clk.elapsed st.BuildupStartTime)) :
    (chaosHandler clk rnd s).state.chaosStates s2.currentCrashType =
      some { st with ChaosEnabled := true, ChaosCount := st.ChaosCount + 1 } ∧
    (∀ k, k ≠ s2.currentCrashType →
      (chaosHandler clk rnd s).state.chaosStates k = s2.chaosStates k) ∧
    (chaosHandler clk rnd s).state.currentCrashType = s2.currentCrashType ∧
    (chaosHandler clk rnd s).outcome =
      Outcome.wrote 500 (Body.failed s2.currentCrashType (st.ChaosCount + 1)) ∧
    (chaosHandler clk rnd s).injected =
      some (injectionOf rnd s2.config s2.currentCrashType
        (since clk.elapsed st.BuildupStartTime)) := by
  rw [chaosHandler_of_started clk rnd s hd hs, hsel]
  simp only
  rw [if_pos (isCategory_ne_empty hcat), buildupStage_of_triggered clk rnd s2 st hst ht hcd]
  obtain ⟨h1, h2, h3, h4⟩ := injectStage_of_valid clk rnd (since clk.elapsed st.BuildupStartTime)
    (st.ChaosCount + 1) { s2 with chaosStates := setEntry s2.chaosStates s2.currentCrashType { st with ChaosEnabled := true, ChaosCount := st.ChaosCount + 1 } } hcat hv
  refine ⟨?_, ?_, h4, h1, h2⟩
  · rw [h3]
    exact setEntry_same _ _ _
  · intro k hk
    rw [h3]
    exact setEntry_other _ _ _ _ hk

theorem buildupStage_network_panic (clk : Clock) (rnd : Rand) (t : State) (st : CrashState)
    (hc : t.currentCrashType = "NetworkDelay")
    (hst : t.chaosStates "NetworkDelay" = some st) (hen : st.ChaosEnabled = false)
    (hcd : crashDue t.config (since clk.elapsed st.BuildupStartTime) = false)
    (hp : simulateNetworkDelay rnd t.config (since clk.elapsed st.BuildupStartTime) = none) :
    (buildupStage clk rnd t).outcome = Outcome.panicked none ∧
    (buildupStage clk rnd t).injected = none ∧
    (buildupStage clk rnd t).state.currentCrashType = "NetworkDelay" ∧
    (buildupStage clk rnd t).state.chaosStates "NetworkDelay" =
      some ⟨st.BuildupStartTime, true, st.ChaosCount + 1⟩ := by
  have hst' : t.chaosStates t.currentCrashType = some st := by rw [hc]; exact hst
  have e2 : ¬ ("NetworkDelay" = "HighCPULoad") := by decide
  have e5 : ¬ ("NetworkDelay" = "MemoryLeak") := by decide
  rw [buildupStage_of_triggered clk rnd t st hst' (triggered_of_not_enabled _ _ _ hen) hcd]
  unfold injectStage
  simp only [hc, e2, e5, if_false, if_true, hp, setEntry_same]
  exact ⟨trivial, trivial, trivial, trivial⟩

/-- C13, on the tick that selects the network delay while `500 * elapsed` is
below `BuildupDuration` (as it is when the readings of lines 224 and 128 are
close): the trigger condition holds and the crash is not due, the count of
the category goes up to 1 and the category stays active, but `maxDelay` is 0
and `rand.Intn(0)` panics in the injector, so that no injection is done and
no 500 is written. -/
theorem network_selection_result (clk : Clock) (rnd : Rand) (s : State) (st0 st : CrashState)
    (hd : tickDue clk s = true) (hs : s.chaosStarted = true) (hc : s.currentCrashType = "")
    (h0 : s.chaosStates "HighCPULoad" = some st0)
    (hstab : since clk.stab st0.BuildupStartTime > 10 * second)
    (hS : 0 < totalChance s.config)
    (hpick : pickCrashType s.config (rnd.uSelect * totalChance s.config) = "NetworkDelay")
    (hst : s.chaosStates "NetworkDelay" = some st) (hcount : st.ChaosCount = 0)
    (hen : st.ChaosEnabled = false)
    (hB : 0 < s.config.BuildupDuration) (hW : 0 ≤ s.config.CrashWindow)
    (hBW : s.config.BuildupDuration + s.config.CrashWindow ≤ maxDuration)
    (hclk : clk.sel ≤ clk.elapsed)
    (hfast : 500 * (clk.elapsed - clk.sel) < s.config.BuildupDuration) :
    triggered { st with BuildupStartTime := clk.sel } rnd.uTrigger
      (effectiveChance s.config "NetworkDelay"
        (progressOf s.config (since clk.elapsed clk.sel))) = true ∧
    crashDue s.config (since clk.elapsed clk.sel) = false ∧
    (chaosHandler clk rnd s).outcome = Outcome.panicked none ∧
    (chaosHandler clk rnd s).injected = none ∧
    (chaosHandler clk rnd s).state.currentCrashType = "NetworkDelay" ∧
    (chaosHandler clk rnd s).state.chaosStates "NetworkDelay" = some ⟨clk.sel, true, 1⟩ := by
  have hel0 : 0 ≤ since clk.elapsed clk.sel := by
    unfold since timeSub maxDuration minDuration
    split_ifs <;> omega
  have hel1 : since clk.elapsed clk.sel ≤ clk.elapsed - clk.sel := by
    unfold since timeSub maxDuration minDuration
    split_ifs <;> omega
  have hthr : durAdd s.config.BuildupDuration s.config.CrashWindow =
      s.config.BuildupDuration + s.config.CrashWindow := by
    unfold durAdd
    apply wrapInt64_of_inRange _ _ hBW
    unfold minDuration
    omega
  have hpanic := (simulateNetworkDelay_eq_none rnd s.config _ hel0 hB (by omega)).2
  have hnc : crashDue s.config (since clk.elapsed clk.sel) = false := by
    unfold crashDue
    rw [hthr]
    simp only [decide_eq_false_iff_not, not_lt, ge_iff_le, gt_iff_lt]
    omega
  refine ⟨triggered_of_not_enabled _ _ _ hen, hnc, ?_⟩
  rw [chaosHandler_of_selection clk rnd s st0 st hd hs hc h0 hstab hS (by rw [hpick]; exact hst)
    hcount, hpick]
  have h := buildupStage_network_panic clk rnd { s with lastChaosCheck := clk.check, currentCrashType := "NetworkDelay", chaosStates := setEntry s.chaosStates "NetworkDelay" { st with BuildupStartTime := clk.sel } } { st with BuildupStartTime := clk.sel } rfl (setEntry_same s.chaosStates "NetworkDelay" _) hen hnc hpanic
  obtain ⟨h1, h2, h3, h4⟩ := h
  refine ⟨h1, h2, h3, ?_⟩
  rw [h4]
  simp only [hcount]
  rfl

/-- C13 on the tick that selects the network delay twenty seconds after
warm-up, with the configuration of the source: the trigger condition holds,
the crash is not due and the count of the category goes up to 1, but
`rand.Intn(0)` panics in the injector, so no injection is done and no 500 is
written. -/
theorem network_trigger_writes_no_500 :
    triggered ⟨(tickingClock (sampleNow + 20 * second)).sel, false, 0⟩ (drawsWith (9 / 20)).uTrigger
      (effectiveChance warmedState.config "NetworkDelay"
        (progressOf warmedState.config
          (since (tickingClock (sampleNow + 20 * second)).elapsed
            (tickingClock (sampleNow + 20 * second)).sel))) = true ∧
    crashDue warmedState.config
      (since (tickingClock (sampleNow + 20 * second)).elapsed
        (tickingClock (sampleNow + 20 * second)).sel) = false ∧
    (chaosHandler (tickingClock (sampleNow + 20 * second)) (drawsWith (9 / 20))
      warmedState).outcome = Outcome.panicked none ∧
    (chaosHandler (tickingClock (sampleNow + 20 * second)) (drawsWith (9 / 20))
      warmedState).injected = none ∧
    (chaosHandler (tickingClock (sampleNow + 20 * second)) (drawsWith (9 / 20))
      warmedState).state.currentCrashType = "NetworkDelay" ∧
    (chaosHandler (tickingClock (sampleNow + 20 * second)) (drawsWith (9 / 20))
      warmedState).state.chaosStates "NetworkDelay" =
        some ⟨(tickingClock (sampleNow + 20 * second)).sel, true, 1⟩ :=
  network_selection_result (tickingClock (sampleNow + 20 * second))
    (drawsWith (9 / 20)) warmedState ⟨sampleNow, false, 0⟩ ⟨sampleNow, false, 0⟩
    (by decide) rfl rfl (by decide) (by decide)
    (by rw [warmedState_config]; norm_num [totalChance, defaultConfig])
    (by rw [warmedState_config]; norm_num [pickCrashType, totalChance, defaultConfig, drawsWith])
    (by decide) rfl rfl (by decide) (by decide) (by decide) (by decide) (by decide)

/-! ## C14: the warm-up transition tick -/

/-- C14: on a due tick with `chaosStarted` false on which the initial-delay
test of line 104 fails (as it does once the delay has elapsed), `chaosHandler`
sets `chaosStarted`, stamps the `BuildupStartTime` of every entry of the map
with the clock reading taken for it, and returns at once, writing nothing and
running neither selection nor an injector: `currentCrashType`, every
`ChaosEnabled`, every `ChaosCount` and `memoryHog` are as before. -/
theorem warmup_transition (clk : Clock) (rnd : Rand) (s : State)
    (hd : tickDue clk s = true) (hs : s.chaosStarted = false)
    (hi : stillInitializing clk s = false) :
    (chaosHandler clk rnd s).state.chaosStarted = true ∧
    (∀ k st, s.chaosStates k = some st →
      (chaosHandler clk rnd s).state.chaosStates k =
        some ⟨clk.warm k, st.ChaosEnabled, st.ChaosCount⟩) ∧
    (∀ k, s.chaosStates k = none → (chaosHandler clk rnd s).state.chaosStates k = none) ∧
    (chaosHandler clk rnd s).state.currentCrashType = s.currentCrashType ∧
    (chaosHandler clk rnd s).state.memoryHog = s.memoryHog ∧
    (chaosHandler clk rnd s).state.config = s.config ∧
    (chaosHandler clk rnd s).state.lastChaosCheck = clk.check ∧
    (chaosHandler clk rnd s).outcome = Outcome.silent ∧
    (chaosHandler clk rnd s).injected = none := by
  rw [chaosHandler_of_not_started clk rnd s hd hs, hi]
  refine ⟨rfl, ?_, ?_, rfl, rfl, rfl, rfl, rfl, rfl⟩
  · intro k st hk
    simp [stampAll, hk]
  · intro k hk
    simp [stampAll, hk]

/-- C14 on the first request after process start, with an initial delay of
thirty seconds: the four entries are stamped and nothing else moves. -/
theorem warmup_transition_first_request :
    (chaosHandler (tickingClock sampleNow) (drawsWith (1 / 2))
      (initState (defaultConfig 30))).state.chaosStarted = true ∧
    (chaosHandler (tickingClock sampleNow) (drawsWith (1 / 2))
      (initState (defaultConfig 30))).state.chaosStates "NetworkDelay" =
        some ⟨sampleNow + 6000, false, 0⟩ ∧
    (chaosHandler (tickingClock sampleNow) (drawsWith (1 / 2))
      (initState (defaultConfig 30))).state.currentCrashType = "" ∧
    (chaosHandler (tickingClock sampleNow) (drawsWith (1 / 2))
      (initState (defaultConfig 30))).outcome = Outcome.silent :=
  have h := warmup_transition (tickingClock sampleNow) (drawsWith (1 / 2))
    (initState (defaultConfig 30)) (by decide) rfl (by decide)
  ⟨h.1, h.2.1 "NetworkDelay" ⟨0, false, 0⟩ rfl, h.2.2.2.1, h.2.2.2.2.2.2.2.1⟩

/-! ## C15: the trigger decision -/

/-- C17: the recovery step of `startServer` leaves `config` as it was, and
with it `InitialDelay`: the step takes no random draw, it only prints the
delay. No request changes `config` either, so that after every sequence of
requests and recovery steps `InitialDelay` is the value drawn at process
start. -/
theorem recovery_keeps_initial_delay (s : State) (es : List Event) :
    (crashRecovery s).config = s.config ∧
    (crashRecovery s).config.InitialDelay = s.config.InitialDelay ∧
    (run s es).config.InitialDelay = s.config.InitialDelay := by
  refine ⟨crashRecovery_config s, ?_, ?_⟩
  · rw [crashRecovery_config]
  · rw [run_config]

/-- Against C17 as stated: a server whose initial delay was drawn as five
seconds and whose CPU cycle has crashed still has an initial delay of five
seconds after the recovery step. -/
theorem initial_delay_survives_recovery :
    burningState.currentCrashType = "HighCPULoad" ∧
    burningState.config.InitialDelay = 5 * second ∧
    (crashRecovery burningState).config.InitialDelay = 5 * second ∧
    (crashRecovery burningState).currentCrashType = "" := by
  refine ⟨rfl, rfl, ?_, ?_⟩
  · rw [crashRecovery_config]
    rfl
  · decide

/-! ## C18: the scenario with zero durations -/

theorem zeroDurationState_eq : zeroDurationState =
    { config := zeroDurationConfig, memoryHog := [],
      chaosStates := stampAll (fun _ => sampleNow) initChaosStates,
      currentCrashType := "", lastChaosCheck := sampleNow, chaosStarted := true } := rfl

theorem crashDue_zero (cfg : ServerCrashConfig) (now t : Int)
    (hB : cfg.BuildupDuration = 0) (hW : cfg.CrashWindow = 0) :
    crashDue cfg (since now t) = true ↔ t < now := by
  unfold crashDue since
  rw [hB, hW]
  have h0 : durAdd 0 0 = 0 := by decide
  rw [h0, decide_eq_true_iff, timeSub_gt_iff now t 0 (by decide) (by decide)]
  omega

theorem buildupStage_cpu_first (clk : Clock) (rnd : Rand) (t : State) (st : CrashState)
    (hc : t.currentCrashType = "HighCPULoad")
    (hst : t.chaosStates "HighCPULoad" = some st) (hen : st.ChaosEnabled = false)
    (hcd : crashDue t.config (since clk.elapsed st.BuildupStartTime) = false) :
    (buildupStage clk rnd t).outcome =
      Outcome.wrote 500 (Body.failed "HighCPULoad" (st.ChaosCount + 1)) ∧
    (buildupStage clk rnd t).state.currentCrashType = "HighCPULoad" := by
  have hst1 : t.chaosStates t.currentCrashType = some st := by rw [hc]; exact hst
  rw [buildupStage_of_triggered clk rnd t st hst1 (triggered_of_not_enabled _ _ _ hen) hcd]
  unfold injectStage
  simp only [hc, if_true]
  exact ⟨trivial, trivial⟩

/-- C18: with `BuildupDuration = 0` and `CrashWindow = 0`, on the tick that
selects a category (from sound variables) the entry selected is evaluated on
the same tick, the trigger condition of line 150 holds for every draw because
the entry is not yet enabled, and the crash condition of line 155 holds
exactly when the clock reading of line 128 is strictly later than the stamp
that `selectCrashType` took in line 224. So the tick aborts the connection,
writing nothing and running no injector, exactly in that case; the entry
ends enabled with a count of 1 either way. -/
theorem zero_duration_selection_tick (clk : Clock) (rnd : Rand) (s s2 : State)
    (hsound : Sound s)
    (hB : s.config.BuildupDuration = 0) (hW : s.config.CrashWindow = 0)
    (hd : tickDue clk s = true) (hs : s.chaosStarted = true)
    (hsel : selectionStage clk rnd { s with lastChaosCheck := clk.check } = Exec.done s2)
    (hc : s.currentCrashType = "") (hact : s2.currentCrashType ≠ "") :
    s2.chaosStates s2.currentCrashType = some ⟨clk.sel, false, 0⟩ ∧
    (∀ u chance, triggered ⟨clk.sel, false, 0⟩ u chance = true) ∧
    (crashDue s2.config (since clk.elapsed clk.sel) = true ↔ clk.sel < clk.elapsed) ∧
    ((chaosHandler clk rnd s).outcome = Outcome.hijacked ↔ clk.sel < clk.elapsed) ∧
    (clk.sel < clk.elapsed → (chaosHandler clk rnd s).injected = none ∧
      ∀ status body, (chaosHandler clk rnd s).outcome ≠ Outcome.wrote status body) ∧
    (chaosHandler clk rnd s).state.chaosStates s2.currentCrashType =
      some ⟨clk.sel, true, 1⟩ := by
  have hsound1 : Sound { s with lastChaosCheck := clk.check } := hsound
  obtain ⟨hS, -, st, hst, hcount, hen, heq⟩ :=
    selection_of_sound clk rnd { s with lastChaosCheck := clk.check } s2 hsound1 hc hsel hact
  have hentry : s2.chaosStates s2.currentCrashType = some ⟨clk.sel, false, 0⟩ := by
    rw [heq]
    simp only [setEntry_same, hcount, hen]
  have hcfg : s2.config = s.config := by rw [heq]
  have hstep : chaosHandler clk rnd s = buildupStage clk rnd s2 := by
    rw [chaosHandler_of_started clk rnd s hd hs, hsel]
    simp only
    rw [if_pos hact]
  have hdue : crashDue s2.config (since clk.elapsed clk.sel) = true ↔ clk.sel < clk.elapsed :=
    crashDue_zero s2.config clk.elapsed clk.sel (by rw [hcfg]; exact hB) (by rw [hcfg]; exact hW)
  have htrig : ∀ u chance, triggered ⟨clk.sel, false, 0⟩ u chance = true :=
    fun u chance => triggered_of_not_enabled _ u chance rfl
  have hij : (chaosHandler clk rnd s).outcome = Outcome.hijacked ↔ clk.sel < clk.elapsed := by
    rw [hstep, buildupStage_hijacked_iff clk rnd s2 _ hentry]
    constructor
    · intro h
      exact hdue.1 h.2
    · intro h
      exact ⟨htrig _ _, hdue.2 h⟩
  refine ⟨hentry, htrig, hdue, hij, ?_, ?_⟩
  · intro hlt
    have hdue1 := hdue.2 hlt
    refine ⟨?_, ?_⟩
    · rw [hstep]
      unfold buildupStage
      simp only [hentry]
      rw [if_pos (htrig _ _), if_pos hdue1]
    · intro status body hw
      rw [hij.2 hlt] at hw
      cases hw
  · rw [hstep, buildupStage_entry clk rnd s2 _ hentry, if_pos (htrig _ _)]
    rfl

/-- C18 on the tick that selects the memory leak, eleven seconds after
warm-up, with the clock advancing between its readings: the connection is
aborted. -/
theorem zero_duration_selection_tick_aborts :
    (chaosHandler (tickingClock (sampleNow + 11 * second)) (drawsWith (1 / 3))
      zeroDurationState).outcome = Outcome.hijacked := by
  have hS : 0 < totalChance zeroDurationState.config := by
    rw [zeroDurationState_eq]
    norm_num [totalChance, zeroDurationConfig]
  have hp : pickCrashType zeroDurationState.config
      ((drawsWith (1 / 3)).uSelect * totalChance zeroDurationState.config) = "MemoryLeak" := by
    rw [zeroDurationState_eq]
    norm_num [pickCrashType, totalChance, zeroDurationConfig, drawsWith]
  have hsel := (selectionStage_of_guard (tickingClock (sampleNow + 11 * second))
    (drawsWith (1 / 3)) { zeroDurationState with lastChaosCheck := (tickingClock (sampleNow + 11 * second)).check }
    ⟨sampleNow, false, 0⟩ rfl (by decide) (by decide)).trans
    (selectCrashType_eq _ _ _ ⟨sampleNow, false, 0⟩ hS (by rw [hp]; decide) rfl)
  exact (zero_duration_selection_tick (tickingClock (sampleNow + 11 * second))
    (drawsWith (1 / 3)) zeroDurationState _
    (run_sound zeroDurationConfig [Event.root (clockAt sampleNow) (drawsWith 0)])
    rfl rfl (by decide) rfl hsel rfl
    (isCategory_ne_empty (pickCrashType_isCategory _ _))).2.2.2.1.2 (by decide)

/-- Against C18 as stated: with the zero durations, on the tick that selects
the CPU load with every clock reading of the request the same, the elapsed
time of line 128 is 0, which does not exceed 0: the tick is triggered, the
crash is not due, and the handler runs the injector and writes a 500
response instead of aborting the connection. -/
theorem zero_duration_equal_readings_write_500 :
    crashDue zeroDurationState.config
      (since (clockAt (sampleNow + 11 * second)).elapsed
        (clockAt (sampleNow + 11 * second)).sel) = false ∧
    (chaosHandler (clockAt (sampleNow + 11 * second)) (drawsWith 0)
      zeroDurationState).outcome = Outcome.wrote 500 (Body.failed "HighCPULoad" 1) ∧
    (chaosHandler (clockAt (sampleNow + 11 * second)) (drawsWith 0)
      zeroDurationState).state.currentCrashType = "HighCPULoad" := by
  have hS : 0 < totalChance zeroDurationState.config := by
    rw [zeroDurationState_eq]
    norm_num [totalChance, zeroDurationConfig]
  have hp : pickCrashType zeroDurationState.config
      ((drawsWith 0).uSelect * totalChance zeroDurationState.config) = "HighCPULoad" := by
    rw [zeroDurationState_eq]
    norm_num [pickCrashType, totalChance, zeroDurationConfig, drawsWith]
  have hdue : crashDue zeroDurationState.config
      (since (clockAt (sampleNow + 11 * second)).elapsed
        (clockAt (sampleNow + 11 * second)).sel) = false := by decide
  refine ⟨hdue, ?_⟩
  rw [chaosHandler_of_selection (clockAt (sampleNow + 11 * second)) (drawsWith 0)
    zeroDurationState ⟨sampleNow, false, 0⟩ ⟨sampleNow, false, 0⟩ (by decide) rfl rfl
    (by decide) (by decide) hS (by rw [hp]; decide) rfl, hp]
  exact buildupStage_cpu_first (clockAt (sampleNow + 11 * second)) (drawsWith 0) _
    ⟨(clockAt (sampleNow + 11 * second)).sel, false, 0⟩ rfl (by simp [setEntry]) rfl hdue

/-! ## C19: the activation timestamp of the active category -/

theorem run_append (s : State) (es fs : List Event) :
    run s (es ++ fs) = run (run s es) fs := by
  induction es generalizing s with
  | nil => rfl
  | cons e es ih => exact ih _

theorem since_mono (now1 now2 t : Int) (h : now1 ≤ now2) : since now1 t ≤ since now2 t := by
  unfold since timeSub maxDuration minDuration
  split_ifs <;> omega

/-- A request on sound variables with an active category keeps the category
and the `BuildupStartTime` of its entry. -/
theorem request_keeps_stamp (s : State) (e : Event) (st : CrashState) (hs : Sound s)
    (hreq : e.isRequest = true) (hact : s.currentCrashType ≠ "")
    (hst : s.chaosStates s.currentCrashType = some st) :
    (step s e).1.currentCrashType = s.currentCrashType ∧
    ∃ st1, (step s e).1.chaosStates s.currentCrashType = some st1 ∧
      st1.BuildupStartTime = st.BuildupStartTime := by
  cases e with
  | recover => cases hreq
  | health now =>
    simp only [step]
    rw [healthCheck_state]
    exact ⟨rfl, st, hst, rfl⟩
  | root clk rnd =>
    simp only [step]
    by_cases hd : tickDue clk s = true
    · have hstarted : s.chaosStarted = true := hs.2.2.1 hact
      rw [chaosHandler_of_active clk rnd s hd hstarted hact]
      have hf := buildupStage_frame clk rnd { s with lastChaosCheck := clk.check } st hst
      refine ⟨hf.2.1, ?_⟩
      rw [hf.2.2.2]
      split_ifs
      · exact ⟨_, setEntry_same _ _ _, rfl⟩
      · exact ⟨st, hst, rfl⟩
    · rw [chaosHandler_of_not_due clk rnd s (eq_false_of_not_true hd), healthyResponse_state]
      exact ⟨rfl, st, hst, rfl⟩

theorem requests_keep_stamp (reqs : List Event) (s : State) (st : CrashState) (hs : Sound s)
    (hreq : ∀ e ∈ reqs, e.isRequest = true) (hact : s.currentCrashType ≠ "")
    (hst : s.chaosStates s.currentCrashType = some st) :
    (run s reqs).currentCrashType = s.currentCrashType ∧
    ∃ st1, (run s reqs).chaosStates s.currentCrashType = some st1 ∧
      st1.BuildupStartTime = st.BuildupStartTime := by
  induction reqs generalizing s st with
  | nil => exact ⟨rfl, st, hst, rfl⟩
  | cons e rest ih =>
    have he : e.isRequest = true := hreq e (List.mem_cons_self _ _)
    have hrest : ∀ x ∈ rest, x.isRequest = true := fun x hx => hreq x (List.mem_cons_of_mem _ hx)
    obtain ⟨hc, st1, hst1, hb1⟩ := request_keeps_stamp s e st hs he hact hst
    have hact1 : (step s e).1.currentCrashType ≠ "" := by rw [hc]; exact hact
    have hst1c : (step s e).1.chaosStates (step s e).1.currentCrashType = some st1 := by
      rw [hc]; exact hst1
    obtain ⟨hc2, st2, hst2, hb2⟩ := ih (step s e).1 st1 (step_sound s e hs) hrest hact1 hst1c
    simp only [run]
    refine ⟨hc2.trans hc, st2, ?_, hb2.trans hb1⟩
    rw [← hc]
    exact hst2

theorem leakRun_currentCrashType :
    (run (initState (defaultConfig 5)) leakRun).currentCrashType = "MemoryLeak" := by
  have hrun : run (initState (defaultConfig 5)) leakRun =
      (chaosHandler (tickingClock (sampleNow + 11 * second)) (drawsWith (1 / 3))
        warmedState).state := rfl
  have hS : 0 < totalChance warmedState.config := by
    rw [warmedState_config]
    norm_num [totalChance, defaultConfig]
  have hp : pickCrashType warmedState.config
      ((drawsWith (1 / 3)).uSelect * totalChance warmedState.config) = "MemoryLeak" := by
    rw [warmedState_config]
    norm_num [pickCrashType, totalChance, defaultConfig, drawsWith]
  have hsel := (selectionStage_of_guard (tickingClock (sampleNow + 11 * second))
    (drawsWith (1 / 3)) { warmedState with lastChaosCheck := (tickingClock (sampleNow + 11 * second)).check }
    ⟨sampleNow, false, 0⟩ rfl (by decide) (by decide)).trans
    (selectCrashType_eq _ _ _ ⟨sampleNow, false, 0⟩ hS (by rw [hp]; decide) rfl)
  rw [hrun, chaosHandler_currentCrashType_of_started _ _ _ (by decide) rfl, hsel]
  exact hp

/-- C19: in every reachable state with an active category `c`, `chaosStarted`
is true and the selection stage of a tick changes nothing; the entry of `c`
exists, and after any further requests to `/` and `/health` the active
category is still `c` and the `BuildupStartTime` of its entry is the same. So
the elapsed time computed from it for a later clock reading is at least the
one computed for an earlier reading. -/
theorem activation_stamp_fixed (cfg : ServerCrashConfig) (es reqs : List Event)
    (hact : (run (initState cfg) es).currentCrashType ≠ "")
    (hreq : ∀ e ∈ reqs, e.isRequest = true) :
    (run (initState cfg) es).chaosStarted = true ∧
    (∀ clk rnd, selectionStage clk rnd (run (initState cfg) es) =
      Exec.done (run (initState cfg) es)) ∧
    (run (initState cfg) (es ++ reqs)).currentCrashType =
      (run (initState cfg) es).currentCrashType ∧
    ∃ st st1,
      (run (initState cfg) es).chaosStates (run (initState cfg) es).currentCrashType = some st ∧
      (run (initState cfg) (es ++ reqs)).chaosStates (run (initState cfg) es).currentCrashType =
        some st1 ∧
      st1.BuildupStartTime = st.BuildupStartTime ∧
      ∀ now1 now2 : Int, now1 ≤ now2 →
        since now1 st.BuildupStartTime ≤ since now2 st1.BuildupStartTime := by
  have hs : Sound (run (initState cfg) es) := run_sound cfg es
  have hcat : IsCategory (run (initState cfg) es).currentCrashType := by
    rcases hs.1.2 with h | h
    · exact absurd h hact
    · exact h
  obtain ⟨st, hst⟩ := lookup_of_hasAllKeys hs.1.1 hcat
  obtain ⟨hc, st1, hst1, hb⟩ := requests_keep_stamp reqs _ st hs hreq hact hst
  refine ⟨hs.2.2.1 hact, ?_, ?_, st, st1, hst, ?_, hb, ?_⟩
  · intro clk rnd
    unfold selectionStage
    rw [if_neg hact]
  · rw [run_append]
    exact hc
  · rw [run_append]
    exact hst1
  · intro now1 now2 h
    rw [hb]
    exact since_mono now1 now2 _ h

/-- C19 on the run that selects the memory leak: after a request to `/health`
and a further tick the memory leak is still active and its entry carries the
stamp it had. -/
theorem activation_stamp_fixed_memory_leak :
    (run (initState (defaultConfig 5)) (leakRun ++ laterRequests)).currentCrashType =
      "MemoryLeak" ∧
    ∃ st st1,
      (run (initState (defaultConfig 5)) leakRun).chaosStates "MemoryLeak" = some st ∧
      (run (initState (defaultConfig 5)) (leakRun ++ laterRequests)).chaosStates "MemoryLeak" =
        some st1 ∧
      st1.BuildupStartTime = st.BuildupStartTime := by
  have h := activation_stamp_fixed (defaultConfig 5) leakRun laterRequests
    (by rw [leakRun_currentCrashType]; decide) (by decide)
  rw [leakRun_currentCrashType] at h
  obtain ⟨-, -, hc, st, st1, h1, h2, h3, -⟩ := h
  exact ⟨hc, st, st1, h1, h2, h3⟩

/-! ## C20: the invariant of the reachable states -/

/-- The tick that selects, on sound variables: the entry picked had never
triggered, and it ends with the stamp of line 224, enabled and with a count
of 1. -/
theorem selection_tick_entry (clk : Clock) (rnd : Rand) (s s2 : State) (hsound : Sound s)
    (hd : tickDue clk s = true) (hs : s.chaosStarted = true) (hc : s.currentCrashType = "")
    (hsel : selectionStage clk rnd { s with lastChaosCheck := clk.check } = Exec.done s2)
    (hact : s2.currentCrashType ≠ "") :
    (chaosHandler clk rnd s).state.currentCrashType = s2.currentCrashType ∧
    s2.currentCrashType = pickCrashType s.config (rnd.uSelect * totalChance s.config) ∧
    (∃ st, s.chaosStates s2.currentCrashType = some st ∧
      st.ChaosCount = 0 ∧ st.ChaosEnabled = false) ∧
    (chaosHandler clk rnd s).state.chaosStates s2.currentCrashType =
      some ⟨clk.sel, true, 1⟩ := by
  have hsound1 : Sound { s with lastChaosCheck := clk.check } := hsound
  obtain ⟨-, -, st, hst, hcount, hen, heq⟩ :=
    selection_of_sound clk rnd { s with lastChaosCheck := clk.check } s2 hsound1 hc hsel hact
  have hentry : s2.chaosStates s2.currentCrashType = some ⟨clk.sel, false, 0⟩ := by
    rw [heq]
    simp only [setEntry_same, hcount, hen]
  have hcur : s2.currentCrashType =
      pickCrashType s.config (rnd.uSelect * totalChance s.config) := by rw [heq]
  have hstep : chaosHandler clk rnd s = buildupStage clk rnd s2 := by
    rw [chaosHandler_of_started clk rnd s hd hs, hsel]
    simp only
    rw [if_pos hact]
  refine ⟨?_, hcur, ⟨st, ?_, hcount, hen⟩, ?_⟩
  · rw [hstep]
    exact buildupStage_currentCrashType clk rnd s2
  · rw [hcur]
    exact hst
  · rw [hstep, buildupStage_entry clk rnd s2 _ hentry,
      if_pos (triggered_of_not_enabled _ _ _ rfl)]
    rfl

/-- A tick that changes `currentCrashType` on sound variables is a selection
tick: no category was active, the entry picked had never triggered, and it
ends with the stamp of line 224, enabled and with a count of 1. -/
theorem chaosHandler_selects (clk : Clock) (rnd : Rand) (s : State) (hs : Sound s)
    (hchange : (chaosHandler clk rnd s).state.currentCrashType ≠ s.currentCrashType) :
    s.currentCrashType = "" ∧
    (chaosHandler clk rnd s).state.currentCrashType =
      pickCrashType s.config (rnd.uSelect * totalChance s.config) ∧
    (∃ st, s.chaosStates (chaosHandler clk rnd s).state.currentCrashType = some st ∧
      st.ChaosCount = 0 ∧ st.ChaosEnabled = false) ∧
    (chaosHandler clk rnd s).state.chaosStates (chaosHandler clk rnd s).state.currentCrashType =
      some ⟨clk.sel, true, 1⟩ := by
  by_cases hd : tickDue clk s = true
  · by_cases hst : s.chaosStarted = true
    · by_cases hc : s.currentCrashType = ""
      · have hs1 : Sound { s with lastChaosCheck := clk.check } := hs
        rcases selectionStage_cases clk rnd { s with lastChaosCheck := clk.check } with
          h | h | ⟨-, hS, -, h⟩
        · exfalso
          apply hchange
          rw [chaosHandler_currentCrashType_of_started clk rnd s hd hst, h]
          rfl
        · exfalso
          apply hchange
          rw [chaosHandler_currentCrashType_of_started clk rnd s hd hst, h]
          rfl
        · obtain ⟨st, -, -, -, heq⟩ :=
            selectCrashType_of_sound clk.sel rnd.uSelect { s with lastChaosCheck := clk.check }
              hs1 hc hS
          obtain ⟨h1, h2, h3, h4⟩ := selection_tick_entry clk rnd s _ hs hd hst hc (h.trans heq)
            (isCategory_ne_empty (pickCrashType_isCategory _ _))
          refine ⟨hc, h1.trans h2, ?_, ?_⟩
          · rw [h1]
            exact h3
          · rw [h1]
            exact h4
      · exfalso
        apply hchange
        rw [chaosHandler_of_active clk rnd s hd hst hc]
        exact buildupStage_currentCrashType clk rnd _
    · exfalso
      apply hchange
      exact chaosHandler_currentCrashType_of_not_started clk rnd s hd (eq_false_of_not_true hst)
  · exfalso
    apply hchange
    rw [chaosHandler_of_not_due clk rnd s (eq_false_of_not_true hd), healthyResponse_state]

/-- C20: after every sequence of requests to `/` and `/health` and recovery
steps from process start, `currentCrashType` is empty or one of the four keys
of `chaosStates`, the four keys are there (so the lookup of the active
category finds an entry), and every entry other than that of the active
category has `ChaosCount = 0` and `ChaosEnabled = false`. So a call of
`selectCrashType` made with no category active that gets past the test of the
sum finds the `ChaosCount == 0` guard true and stamps `BuildupStartTime` of
the selected entry with its clock reading, and a tick of `chaosHandler` that
changes `currentCrashType` leaves the new entry with that stamp. -/
theorem reachable_invariant (cfg : ServerCrashConfig) (es : List Event) :
    ((run (initState cfg) es).currentCrashType = "" ∨
      IsCategory (run (initState cfg) es).currentCrashType) ∧
    HasAllKeys (run (initState cfg) es).chaosStates ∧
    ((run (initState cfg) es).currentCrashType ≠ "" →
      ∃ st, (run (initState cfg) es).chaosStates (run (initState cfg) es).currentCrashType =
        some st) ∧
    (∀ k st, k ≠ (run (initState cfg) es).currentCrashType →
      (run (initState cfg) es).chaosStates k = some st →
      st.ChaosCount = 0 ∧ st.ChaosEnabled = false) ∧
    (∀ (now : Int) (u : ℚ), (run (initState cfg) es).currentCrashType = "" →
      0 < totalChance (run (initState cfg) es).config →
      ∃ st, (run (initState cfg) es).chaosStates
          (pickCrashType cfg (u * totalChance cfg)) = some st ∧
        st.ChaosCount = 0 ∧
        ∃ s2, selectCrashType now u (run (initState cfg) es) = Exec.done s2 ∧
          s2.currentCrashType = pickCrashType cfg (u * totalChance cfg) ∧
          s2.chaosStates s2.currentCrashType = some ⟨now, st.ChaosEnabled, st.ChaosCount⟩) ∧
    (∀ (clk : Clock) (rnd : Rand),
      (chaosHandler clk rnd (run (initState cfg) es)).state.currentCrashType ≠
        (run (initState cfg) es).currentCrashType →
      (chaosHandler clk rnd (run (initState cfg) es)).state.chaosStates
        (chaosHandler clk rnd (run (initState cfg) es)).state.currentCrashType =
          some ⟨clk.sel, true, 1⟩) := by
  have hs : Sound (run (initState cfg) es) := run_sound cfg es
  have hcfg : (run (initState cfg) es).config = cfg := run_config es (initState cfg)
  refine ⟨hs.1.2, hs.1.1, ?_, hs.2.2.2, ?_, ?_⟩
  · intro hact
    rcases hs.1.2 with h | h
    · exact absurd h hact
    · exact lookup_of_hasAllKeys hs.1.1 h
  · intro now u hc hS
    obtain ⟨st, hl, hcount, -, heq⟩ := selectCrashType_of_sound now u _ hs hc hS
    rw [hcfg] at hl heq
    refine ⟨st, hl, hcount, _, heq, rfl, ?_⟩
    exact setEntry_same _ _ _
  · intro clk rnd hchange
    exact (chaosHandler_selects clk rnd _ hs hchange).2.2.2

end GuideWire
